import Mathlib

/-!
Verification of emuecu: the engine lifecycle state machine (src/src/ecu.c)

Shallow embedding of the control loop of `ecu.c`.

Target and integer model.  The file is built for AVR (`avr/io.h`), where `int`
is 16 bits wide.  A `uint16_t` operand is therefore never promoted to a wider
signed type: `a - b` on two `uint16_t` is computed modulo 2^16, and a
comparison between an `int16_t` and a `uint16_t` converts the signed operand
to `unsigned int` first.  Values of type `uint16_t` are natural numbers below
65536, values of type `int16_t` are integers in [-32768, 32767]; every
conversion is written out with an explicit `% 65536`.

`config.h` and `ecu.h` are not part of the source tree.  The integer fields of
`config` and `status` are taken as `uint16_t` (the casts `(int16_t)config.pwm0_min`,
`(int16_t)status.thr_in` and the parameter types of `clamp_pwm` show it), the
macro `PWM_LIMIT` is a parameter of the model (a plain decimal constant,
compared as a signed integer), and `float` values are exact rationals.
-/

namespace Ecu

/-! ## Machine integers -/

/-- Conversion of an integer to `uint16_t`: reduction modulo 2^16. -/
def to_u16 (x : Int) : Nat := (x % 65536).toNat

/-- Conversion of an integer to `int16_t`: the representative of `x` modulo
2^16 that lies in [-32768, 32767]. -/
def to_i16 (x : Int) : Int := (x + 32768) % 65536 - 32768

/-- The C expression `a - b` on two `uint16_t` operands (16-bit `unsigned int`
arithmetic). -/
def sub16 (a b : Nat) : Nat := (a + 65536 - b) % 65536

/-- Conversion of a `float` to an integer type: truncation toward zero. -/
def trunc (q : ℚ) : Int := if 0 ≤ q then Int.floor q else Int.ceil q

/-- `INT16_MAX`. -/
def INT16_MAX : Nat := 32767

/-! ## PWM clamp (ecu.c, lines 24-36) -/

/-- The macro `CLAMP(v, min, max)` as `clamp_pwm` expands it: `v` is an
`int16_t`, `min` and `max` are `uint16_t`, so both comparisons are made on
`(unsigned)v`; the selected value is stored back into the `int16_t` variable. -/
def CLAMP (v : Int) (min max : Nat) : Int :=
  if to_u16 v > max then to_i16 max
  else if to_u16 v < min then to_i16 min
  else v

/-- Function `clamp_pwm(int16_t v, uint16_t pwm_min, uint16_t pwm_max)`. -/
def clamp_pwm (PWM_LIMIT : Int) (v : Int) (pwm_min pwm_max : Nat) : Nat :=
  let v := if v > PWM_LIMIT then 0 else v
  to_u16 (CLAMP v pwm_min pwm_max)

/-! ## Data model -/

/-- Lifecycle states of the engine (`status.state`). -/
inductive State where
  | INIT
  | PRIME
  | STOPPED
  | CRANK
  | START
  | RUNNING
  deriving DecidableEq, Repr

/-- The members of `config` the control loop reads; all are `uint16_t`. -/
structure Config where
  pwm0_min : Nat
  pwm0_max : Nat
  pwm1_min : Nat
  pwm1_max : Nat
  thr_min : Nat
  thr_max : Nat
  thr_start : Nat
  dwell_time_ms : Nat
  start_time_ms : Nat
  rpm_limit : Nat
  auto_start : Nat
  deriving DecidableEq, Repr

/-- The members of `status` the control loop reads or writes, followed by the
two switched outputs driven through `ignition_enable`/`ignition_disable` and
`pump_enable`/`pump_disable`.  The sensor members (`baro`, `iat`, `cht`,
`ecut`, `humidity`, `egt`) are written by the telemetry block only and reach
the state machine through `pt_c` alone; `set_pwm(n, status.pwmN_out)` always
mirrors the status member, which stands for the channel. -/
structure Status where
  state : State
  engine_start_ms : Nat
  engine_stop_ms : Nat
  engine_prime_ms : Nat
  rpm : Nat
  thr_in : Nat
  throttle_in : ℚ
  throttle_out : ℚ
  pwm0_out : Nat
  pwm1_out : Nat
  starts : Nat
  pt_c : ℚ
  ignition : Bool
  pump : Bool
  deriving DecidableEq, Repr

/-- What one control cycle reads from its collaborators: `ms` is the value of
`ticks_ms()` at the top of the loop (line 194), `tick` the value of the
`ticks_ms()` call made inside the state switch (lines 56, 271, 292, 301; at
most one of them runs in a cycle), `rpm` the value of `rpm()`, `thr_in` the
value of `pwm_input()` and `pt_c` the value of `inj_corrections(...)`. -/
structure Input where
  ms : Nat
  tick : Nat
  rpm : Nat
  thr_in : Nat
  pt_c : ℚ
  deriving DecidableEq, Repr

/-- Every member of the configuration is a `uint16_t` value. -/
def Config.wf (c : Config) : Prop :=
  c.pwm0_min < 65536 ∧ c.pwm0_max < 65536 ∧ c.pwm1_min < 65536 ∧ c.pwm1_max < 65536 ∧
  c.thr_min < 65536 ∧ c.thr_max < 65536 ∧ c.thr_start < 65536 ∧
  c.dwell_time_ms < 65536 ∧ c.start_time_ms < 65536 ∧ c.rpm_limit < 65536 ∧
  c.auto_start < 65536

instance (c : Config) : Decidable c.wf := by
  unfold Config.wf; infer_instance

/-- Every sampled integer is a `uint16_t` value. -/
def Input.wf (i : Input) : Prop :=
  i.ms < 65536 ∧ i.tick < 65536 ∧ i.rpm < 65536 ∧ i.thr_in < 65536

instance (i : Input) : Decidable i.wf := by
  unfold Input.wf; infer_instance

/-! ## Crank and stop (ecu.c, lines 40-60) -/

/-- Function `engine_crank(bool crank)`. -/
def engine_crank (cfg : Config) (s : Status) (crank : Bool) : Status :=
  if crank then { s with pwm1_out := cfg.pwm1_max }
  else { s with pwm1_out := cfg.pwm1_min }

/-- Function `engine_stop()`; `tick` is the value its `ticks_ms()` call returns. -/
def engine_stop (cfg : Config) (s : Status) (tick : Nat) : Status :=
  engine_crank cfg { s with engine_stop_ms := tick, ignition := false, pump := false } false

/-! ## Throttle blend (ecu.c, lines 62-75) -/

/-- The local `throttle_start` of `throttle`: both differences are taken on
`uint16_t` operands and converted to `float`. -/
def throttle_start (cfg : Config) : ℚ :=
  (sub16 cfg.thr_start cfg.thr_min : ℚ) / (sub16 cfg.thr_max cfg.thr_min : ℚ)

/-- The local `wgt` of `throttle`. -/
def blend_weight (cfg : Config) (run_time_ms : Nat) : ℚ :=
  (sub16 run_time_ms cfg.dwell_time_ms : ℚ) / (cfg.dwell_time_ms : ℚ)

/-- Function `throttle(uint16_t run_time_ms)`; `2*config.dwell_time_ms` is a
16-bit unsigned product. -/
def throttle (cfg : Config) (s : Status) (run_time_ms : Nat) : ℚ :=
  if s.state = State.CRANK ∨ s.state = State.START then
    throttle_start cfg
  else if s.state = State.RUNNING ∧ run_time_ms > cfg.dwell_time_ms ∧
      run_time_ms < (2 * cfg.dwell_time_ms) % 65536 then
    blend_weight cfg run_time_ms * s.throttle_in +
      (1 - blend_weight cfg run_time_ms) * throttle_start cfg
  else
    s.throttle_in

/-! ## Start-up (ecu.c, lines 77-83 and 188-190) -/

/-- The global `status = {0}` after `default_state()`; ignition and pump are
taken as off at reset. -/
def default_state (cfg : Config) : Status :=
  { state := State.INIT, engine_start_ms := 0, engine_stop_ms := 0, engine_prime_ms := 0,
    rpm := 0, thr_in := 0, throttle_in := 0, throttle_out := 0,
    pwm0_out := cfg.pwm0_min, pwm1_out := cfg.pwm1_min, starts := 0, pt_c := 0,
    ignition := false, pump := false }

/-- The status on entry to the loop: `default_state()`, then both timestamps
set to the first tick (lines 188-190). -/
def boot (cfg : Config) (ms : Nat) : Status :=
  { default_state cfg with engine_stop_ms := ms, engine_start_ms := ms }

/-! ## One control cycle (ecu.c, lines 194-351) -/

/-- One timestamp through the slide test of lines 196-203:
`if ((ms - t) > INT16_MAX) t = ms - INT16_MAX;`. -/
def slide (ms t : Nat) : Nat :=
  if sub16 ms t > INT16_MAX then sub16 ms INT16_MAX else t

/-- Lines 196-203: the stop time, then the start time, are slid. -/
def slide_step (s : Status) (ms : Nat) : Status :=
  let s := { s with engine_stop_ms := slide ms s.engine_stop_ms }
  { s with engine_start_ms := slide ms s.engine_start_ms }

/-- Lines 204-207: the local `run_time_ms`. -/
def run_time_ms (s : Status) (ms : Nat) : Nat :=
  if s.state = State.RUNNING ∨ s.state = State.START ∨ s.state = State.CRANK then
    sub16 ms s.engine_start_ms
  else 0

/-- Lines 210-212: `thr_clamped` scaled into a fraction. -/
def throttle_fraction (PWM_LIMIT : Int) (cfg : Config) (thr_in : Nat) : ℚ :=
  let thr_clamped := clamp_pwm PWM_LIMIT (to_i16 thr_in) cfg.thr_min cfg.thr_max
  let t_scale : ℚ := 1 / (sub16 cfg.thr_max cfg.thr_min : ℚ)
  (sub16 thr_clamped cfg.thr_min : ℚ) * t_scale

/-- Lines 208-213: sample rpm and throttle, compute both throttle fractions. -/
def sample (PWM_LIMIT : Int) (cfg : Config) (s : Status) (inp : Input) (rt : Nat) : Status :=
  let s := { s with rpm := inp.rpm, thr_in := inp.thr_in }
  let s := { s with throttle_in := throttle_fraction PWM_LIMIT cfg s.thr_in }
  { s with throttle_out := throttle cfg s rt }

/-- Line 215: the local `pwm0_out`, computed in 16-bit `int` arithmetic. -/
def pwm0_demand (cfg : Config) (throttle_out : ℚ) : Int :=
  to_i16 (to_i16 cfg.pwm0_min +
    to_i16 (trunc (throttle_out * (to_i16 (to_i16 cfg.pwm0_max - to_i16 cfg.pwm0_min) : ℚ))))

/-- Lines 215-221: the throttle channel is clamped between the ordered bounds. -/
def publish_pwm0 (PWM_LIMIT : Int) (cfg : Config) (s : Status) : Status :=
  if cfg.pwm0_min < cfg.pwm0_max then
    { s with pwm0_out := clamp_pwm PWM_LIMIT (pwm0_demand cfg s.throttle_out)
                           cfg.pwm0_min cfg.pwm0_max }
  else
    { s with pwm0_out := clamp_pwm PWM_LIMIT (pwm0_demand cfg s.throttle_out)
                           cfg.pwm0_max cfg.pwm0_min }

/-- Lines 335-347: the guards shared by `case START` (by fall-through) and
`case RUNNING`. -/
def running_guards (cfg : Config) (s : Status) (tick : Nat) : Status :=
  if s.rpm > cfg.rpm_limit then
    { engine_stop cfg s tick with state := State.STOPPED }
  else if s.throttle_in ≤ 0 then
    { engine_stop cfg s tick with state := State.STOPPED }
  else if s.rpm = 0 then
    { engine_stop cfg s tick with state := State.STOPPED }
  else s

/-- Lines 285-307: the body of `case STOPPED`. -/
def stopped_case (cfg : Config) (s : Status) (ms tick : Nat) : Status :=
  if sub16 ms s.engine_stop_ms > cfg.dwell_time_ms then
    let s := if cfg.auto_start ≠ 0 ∧ s.thr_in < cfg.thr_start then { s with starts := 0 } else s
    if s.rpm > 0 ∧ 0 < s.throttle_in then
      { s with engine_start_ms := tick, ignition := true, pump := true, state := State.START }
    else if cfg.auto_start ≠ 0 ∧ s.thr_in > cfg.thr_start ∧ s.starts < cfg.auto_start then
      let s := { s with starts := (s.starts + 1) % 65536, engine_start_ms := tick }
      let s := engine_crank cfg s true
      { s with pump := true, state := State.CRANK }
    else s
  else s

/-- Lines 321-332: the body of `case START` before it falls through. -/
def start_case (cfg : Config) (s : Status) (rt : Nat) : Status :=
  let s := if cfg.auto_start ≠ 0 ∧ s.pwm1_out = cfg.pwm1_max ∧ rt > cfg.start_time_ms
    then engine_crank cfg s false else s
  if s.rpm > 0 ∧ rt > cfg.dwell_time_ms then
    { s with starts := 0, state := State.RUNNING }
  else s

/-- Lines 267-351: the state switch. -/
def state_step (cfg : Config) (s : Status) (ms rt tick : Nat) : Status :=
  match s.state with
  | State.INIT =>
    if s.pt_c > 0 then
      { s with engine_prime_ms := tick, pump := true, state := State.PRIME }
    else s
  | State.PRIME =>
    if sub16 ms s.engine_prime_ms > 1000 then
      { engine_stop cfg s tick with state := State.STOPPED }
    else s
  | State.STOPPED => stopped_case cfg s ms tick
  | State.CRANK =>
    if rt > cfg.start_time_ms then
      { engine_stop cfg s tick with state := State.STOPPED }
    else if s.rpm > 0 then
      { s with ignition := true, state := State.START }
    else s
  | State.START => running_guards cfg (start_case cfg s rt) tick
  | State.RUNNING => running_guards cfg s tick

/-- The body of the `while (1)` loop.  The configuration is the same through
the whole cycle: `check_input()` (line 227), which can rewrite it from the
serial console, is left out, and so is the telemetry block (lines 229-266),
which writes sensor members only. -/
def cycle (PWM_LIMIT : Int) (cfg : Config) (s : Status) (inp : Input) : Status :=
  let s := slide_step s inp.ms
  let rt := run_time_ms s inp.ms
  let s := sample PWM_LIMIT cfg s inp rt
  let s := publish_pwm0 PWM_LIMIT cfg s
  let s := { s with pt_c := inp.pt_c }
  state_step cfg s inp.ms rt inp.tick

/-- The status after the cycles fed by `inps`, oldest first. -/
def run (PWM_LIMIT : Int) (cfg : Config) (s : Status) (inps : List Input) : Status :=
  inps.foldl (cycle PWM_LIMIT cfg) s

/-- The value of `run_time_ms` a cycle works with: the one computed after the
slide step. -/
def cycle_run_time (s : Status) (ms : Nat) : Nat :=
  run_time_ms (slide_step s ms) ms

/-- Lines 194-223 of the loop body: everything a cycle does before the state
switch. -/
def front (PWM_LIMIT : Int) (cfg : Config) (s : Status) (inp : Input) : Status :=
  { publish_pwm0 PWM_LIMIT cfg
      (sample PWM_LIMIT cfg (slide_step s inp.ms) inp (cycle_run_time s inp.ms)) with
    pt_c := inp.pt_c }

/-! ## A concrete configuration and concrete statuses for the worked cases -/

/-- A configuration with servo-style bounds, a dwell of 500 ms and three
automatic crank attempts. -/
def cfg_demo : Config :=
  { pwm0_min := 1000, pwm0_max := 2000, pwm1_min := 1000, pwm1_max := 2000,
    thr_min := 1000, thr_max := 2000, thr_start := 1200,
    dwell_time_ms := 500, start_time_ms := 1500, rpm_limit := 8000, auto_start := 3 }

/-- A status in `RUNNING`, started at tick 1000, starter still driven. -/
def st_running : Status :=
  { state := State.RUNNING, engine_start_ms := 1000, engine_stop_ms := 400, engine_prime_ms := 0,
    rpm := 3000, thr_in := 1500, throttle_in := 1 / 2, throttle_out := 1 / 2,
    pwm0_out := 1500, pwm1_out := 2000, starts := 1, pt_c := 1,
    ignition := true, pump := true }

/-- An over-rev sample: 9000 rpm read at tick 5000, the stop stamped at 5001. -/
def inp_overrev : Input :=
  { ms := 5000, tick := 5001, rpm := 9000, thr_in := 1500, pt_c := 1 }

/-- A status whose prime time was written at tick 0. -/
def st_primed : Status :=
  { state := State.PRIME, engine_start_ms := 0, engine_stop_ms := 0, engine_prime_ms := 0,
    rpm := 0, thr_in := 1000, throttle_in := 0, throttle_out := 0,
    pwm0_out := 1000, pwm1_out := 1000, starts := 0, pt_c := 1,
    ignition := false, pump := true }

/-- Both PWM outputs lie between their configured bounds, taken in either
order. -/
def pwm_in_bounds (cfg : Config) (s : Status) : Prop :=
  min cfg.pwm0_min cfg.pwm0_max ≤ s.pwm0_out ∧ s.pwm0_out ≤ max cfg.pwm0_min cfg.pwm0_max ∧
  min cfg.pwm1_min cfg.pwm1_max ≤ s.pwm1_out ∧ s.pwm1_out ≤ max cfg.pwm1_min cfg.pwm1_max

instance (cfg : Config) (s : Status) : Decidable (pwm_in_bounds cfg s) := by
  unfold pwm_in_bounds; infer_instance

/-- The configuration `cfg_demo` with a reversed throttle servo. -/
def cfg_reversed : Config :=
  { cfg_demo with pwm0_min := 2000, pwm0_max := 1000 }

/-- The configuration `cfg_demo` with a start threshold above `thr_max`. -/
def cfg_start_high : Config :=
  { cfg_demo with thr_start := 2500 }

/-- A status in `CRANK`, cranking since tick 1000. -/
def st_cranking : Status :=
  { state := State.CRANK, engine_start_ms := 1000, engine_stop_ms := 400, engine_prime_ms := 0,
    rpm := 0, thr_in := 1500, throttle_in := 1 / 2, throttle_out := 1 / 5,
    pwm0_out := 1200, pwm1_out := 2000, starts := 1, pt_c := 1,
    ignition := false, pump := true }

/-- A status in `START`, started at tick 1000. -/
def st_started : Status :=
  { state := State.START, engine_start_ms := 1000, engine_stop_ms := 400, engine_prime_ms := 0,
    rpm := 0, thr_in := 1500, throttle_in := 1 / 2, throttle_out := 1 / 5,
    pwm0_out := 1200, pwm1_out := 1000, starts := 1, pt_c := 1,
    ignition := true, pump := true }

/-- A sample with the throttle at mid travel and no rotation, read at tick
`ms`. -/
def inp_idle (ms : Nat) : Input :=
  { ms := ms, tick := ms, rpm := 0, thr_in := 1500, pt_c := 1 }

/-- A sample with the throttle at mid travel and 10 rpm, read at tick `ms`. -/
def inp_turning (ms : Nat) : Input :=
  { ms := ms, tick := ms, rpm := 10, thr_in := 1500, pt_c := 1 }

/-- Three automatic crank attempts that all time out: prime at 10, stopped at
1020, then crank at 1600, 3800 and 6000, each given up 1600 ms later. -/
def inps_three_failed : List Input :=
  [inp_idle 10, inp_idle 1020, inp_idle 1600, inp_idle 3200, inp_idle 3800, inp_idle 5400,
   inp_idle 6000, inp_idle 7600]

/-- A sample with a raw throttle reading of 2400 and 3000 rpm, read at tick
`ms`. -/
def inp_thr_lost (ms : Nat) : Input :=
  { ms := ms, tick := ms, rpm := 3000, thr_in := 2400, pt_c := 1 }

/-- A status in `STOPPED` since tick 400, one crank attempt used. -/
def st_stopped : Status :=
  { state := State.STOPPED, engine_start_ms := 100, engine_stop_ms := 400, engine_prime_ms := 0,
    rpm := 0, thr_in := 1500, throttle_in := 1 / 2, throttle_out := 1 / 2,
    pwm0_out := 1500, pwm1_out := 1000, starts := 1, pt_c := 1,
    ignition := false, pump := false }

/-- A status in `STOPPED` since tick 400 with no crank attempt used, so that
the auto-crank guard can hold. -/
def st_stopped_fresh : Status :=
  { st_stopped with starts := 0 }

/-! ## The operations as the specification words them -/

/-- The Throttle Blend Estimator as section 4.3 of the specification words it:
the cranking fraction `(thr_start - thr_min) / (thr_max - thr_min)` in `CRANK`
or `START`, the blend `w * throttle_in + (1 - w) * ts` with
`w = (run_time_ms - dwell_time_ms) / dwell_time_ms` in `RUNNING` while
`dwell_time_ms < run_time_ms < 2 * dwell_time_ms`, and `throttle_in`
otherwise; all differences and the product are taken over unbounded numbers. -/
def throttle_spec (cfg : Config) (s : Status) (run_time_ms : Nat) : ℚ :=
  let ts : ℚ := ((cfg.thr_start : ℚ) - (cfg.thr_min : ℚ)) /
    ((cfg.thr_max : ℚ) - (cfg.thr_min : ℚ))
  if s.state = State.CRANK ∨ s.state = State.START then ts
  else if s.state = State.RUNNING ∧ cfg.dwell_time_ms < run_time_ms ∧
      run_time_ms < 2 * cfg.dwell_time_ms then
    let w : ℚ := ((run_time_ms : ℚ) - (cfg.dwell_time_ms : ℚ)) / (cfg.dwell_time_ms : ℚ)
    w * s.throttle_in + (1 - w) * ts
  else s.throttle_in

/-- The clamp as section 4.2 of the specification words it: a value above the
sentinel is forced to 0, then the result is clamped into `[low, high]`, over
the integers. -/
def clamp_spec (PWM_LIMIT : Int) (v : Int) (low high : Nat) : Int :=
  let v := if v > PWM_LIMIT then 0 else v
  min (max v (low : Int)) (high : Int)

/-- The configuration `cfg_demo` with a dwell of 40000 ms. -/
def cfg_long_dwell : Config :=
  { cfg_demo with dwell_time_ms := 40000 }

/-- The configuration `cfg_demo` with a start threshold below `thr_min`. -/
def cfg_start_low : Config :=
  { cfg_demo with thr_start := 900 }

/-! ## Cycles tagged with their true tick time -/

/-- The cycles of `steps`, each paired with the unbounded tick time at which
it runs, follow the time `T0` in non-decreasing order with consecutive gaps
below 32768 ms, and each cycle reads `ms` as its true time modulo 2^16. -/
def timed : Nat → List (Nat × Input) → Prop
  | _, [] => True
  | T0, p :: rest => T0 ≤ p.1 ∧ p.1 - T0 < 32768 ∧ p.2.ms = p.1 % 65536 ∧ timed p.1 rest

/-- Through the cycles of `steps` the state switch never rewrites the
timestamp `f`: each cycle ends with the value its slide step left. -/
def kept (PWM_LIMIT : Int) (cfg : Config) (f : Status → Nat) :
    Status → List (Nat × Input) → Prop
  | _, [] => True
  | s, p :: rest =>
    f (cycle PWM_LIMIT cfg s p.2) = f (slide_step s p.2.ms) ∧
    kept PWM_LIMIT cfg f (cycle PWM_LIMIT cfg s p.2) rest

/-- The inputs of a list of timed cycles. -/
def inputs_of (steps : List (Nat × Input)) : List Input :=
  steps.map Prod.snd

/-- A status held in `STOPPED` since tick 1000 with all three crank attempts
used. -/
def st_exhausted : Status :=
  { st_stopped with engine_stop_ms := 1000, engine_start_ms := 1000, starts := 3 }

/-! ## Invariants of the crank channel -/

/-- Outside a start attempt the crank channel is at its minimum. -/
def crank_off (cfg : Config) (s : Status) : Prop :=
  (s.state = State.INIT ∨ s.state = State.PRIME ∨ s.state = State.STOPPED) →
    s.pwm1_out = cfg.pwm1_min

/-- The crank channel is at its minimum, or it is driven at its maximum by an
automatic start attempt still in `CRANK` or `START`. -/
def starter_state (cfg : Config) (s : Status) : Prop :=
  s.pwm1_out = cfg.pwm1_min ∨
  (s.pwm1_out = cfg.pwm1_max ∧ cfg.auto_start ≠ 0 ∧
    (s.state = State.CRANK ∨ s.state = State.START))

/-- The configuration `cfg_demo` with a dwell of 1500 ms and a crank time of
1000 ms. -/
def cfg_quick : Config :=
  { cfg_demo with dwell_time_ms := 1500, start_time_ms := 1000 }

/-- An automatic start that succeeds under `cfg_quick`: prime at 10, stopped
at 1020, crank at 2600, rotation seen at 2700. -/
def inps_cranked : List Input :=
  [inp_idle 10, inp_idle 1020, inp_idle 2600, inp_turning 2700]

/-! ## Basic facts on machine integers -/

theorem to_u16_lt (x : Int) : to_u16 x < 65536 := by
  unfold to_u16; omega

theorem to_u16_to_i16 (x : Int) : to_u16 (to_i16 x) = to_u16 x := by
  unfold to_u16 to_i16; omega

theorem to_u16_natCast (n : Nat) (h : n < 65536) : to_u16 (n : Int) = n := by
  unfold to_u16; omega

theorem to_u16_to_i16_natCast (n : Nat) (h : n < 65536) :
    to_u16 (to_i16 (n : Int)) = n := by
  rw [to_u16_to_i16, to_u16_natCast n h]

theorem sub16_lt (a b : Nat) : sub16 a b < 65536 := by
  unfold sub16; omega

/-- The value returned by `clamp_pwm`, case by case on the unsigned reading of
the (possibly zeroed) argument. -/
theorem clamp_pwm_eq (L v : Int) (lo hi : Nat) (hlo : lo < 65536) (hhi : hi < 65536) :
    clamp_pwm L v lo hi =
      if to_u16 (if v > L then 0 else v) > hi then hi
      else if to_u16 (if v > L then 0 else v) < lo then lo
      else to_u16 (if v > L then 0 else v) := by
  unfold clamp_pwm CLAMP
  simp only []
  generalize (if v > L then (0 : Int) else v) = w
  by_cases h1 : to_u16 w > hi
  · simp only [h1, if_true]; exact to_u16_to_i16_natCast hi hhi
  · by_cases h2 : to_u16 w < lo
    · simp only [h1, h2, if_true, if_false]; exact to_u16_to_i16_natCast lo hlo
    · simp only [h1, h2, if_false]

theorem clamp_pwm_range (L v : Int) (lo hi : Nat) (hlo : lo < 65536) (hhi : hi < 65536)
    (h : lo ≤ hi) : lo ≤ clamp_pwm L v lo hi ∧ clamp_pwm L v lo hi ≤ hi := by
  rw [clamp_pwm_eq L v lo hi hlo hhi]
  generalize to_u16 (if v > L then (0 : Int) else v) = w
  split_ifs <;> omega


/-! ## The front half of the cycle, member by member -/

theorem cycle_eq_front (L : Int) (cfg : Config) (s : Status) (inp : Input) :
    cycle L cfg s inp =
      state_step cfg (front L cfg s inp) inp.ms (cycle_run_time s inp.ms) inp.tick := rfl

theorem publish_pwm0_eq (L : Int) (cfg : Config) (s : Status) :
    publish_pwm0 L cfg s =
      { s with pwm0_out :=
          if cfg.pwm0_min < cfg.pwm0_max then
            clamp_pwm L (pwm0_demand cfg s.throttle_out) cfg.pwm0_min cfg.pwm0_max
          else clamp_pwm L (pwm0_demand cfg s.throttle_out) cfg.pwm0_max cfg.pwm0_min } := by
  unfold publish_pwm0; split <;> rfl

@[simp] theorem front_state (L : Int) (cfg : Config) (s : Status) (inp : Input) :
    (front L cfg s inp).state = s.state := by
  simp [front, publish_pwm0_eq, sample, slide_step]

@[simp] theorem front_rpm (L : Int) (cfg : Config) (s : Status) (inp : Input) :
    (front L cfg s inp).rpm = inp.rpm := by
  simp [front, publish_pwm0_eq, sample, slide_step]

@[simp] theorem front_thr_in (L : Int) (cfg : Config) (s : Status) (inp : Input) :
    (front L cfg s inp).thr_in = inp.thr_in := by
  simp [front, publish_pwm0_eq, sample, slide_step]

@[simp] theorem front_throttle_in (L : Int) (cfg : Config) (s : Status) (inp : Input) :
    (front L cfg s inp).throttle_in = throttle_fraction L cfg inp.thr_in := by
  simp [front, publish_pwm0_eq, sample, slide_step]

@[simp] theorem front_pt_c (L : Int) (cfg : Config) (s : Status) (inp : Input) :
    (front L cfg s inp).pt_c = inp.pt_c := by
  simp [front]

@[simp] theorem front_pwm1_out (L : Int) (cfg : Config) (s : Status) (inp : Input) :
    (front L cfg s inp).pwm1_out = s.pwm1_out := by
  simp [front, publish_pwm0_eq, sample, slide_step]

@[simp] theorem front_starts (L : Int) (cfg : Config) (s : Status) (inp : Input) :
    (front L cfg s inp).starts = s.starts := by
  simp [front, publish_pwm0_eq, sample, slide_step]

@[simp] theorem front_engine_stop_ms (L : Int) (cfg : Config) (s : Status) (inp : Input) :
    (front L cfg s inp).engine_stop_ms = slide inp.ms s.engine_stop_ms := by
  simp [front, publish_pwm0_eq, sample, slide_step]

@[simp] theorem front_engine_start_ms (L : Int) (cfg : Config) (s : Status) (inp : Input) :
    (front L cfg s inp).engine_start_ms = slide inp.ms s.engine_start_ms := by
  simp [front, publish_pwm0_eq, sample, slide_step]

@[simp] theorem front_engine_prime_ms (L : Int) (cfg : Config) (s : Status) (inp : Input) :
    (front L cfg s inp).engine_prime_ms = s.engine_prime_ms := by
  simp [front, publish_pwm0_eq, sample, slide_step]

/-- The value `throttle` returns depends on the status through `state` and
`throttle_in` only. -/
theorem throttle_congr (cfg : Config) (s t : Status) (rt : Nat)
    (h1 : s.state = t.state) (h2 : s.throttle_in = t.throttle_in) :
    throttle cfg s rt = throttle cfg t rt := by
  unfold throttle; rw [h1, h2]

theorem front_throttle_out (L : Int) (cfg : Config) (s : Status) (inp : Input) :
    (front L cfg s inp).throttle_out =
      throttle cfg { s with throttle_in := throttle_fraction L cfg inp.thr_in }
        (cycle_run_time s inp.ms) := by
  simp only [front, publish_pwm0_eq, sample]
  apply throttle_congr <;> simp [slide_step]

theorem front_pwm0_out (L : Int) (cfg : Config) (s : Status) (inp : Input) :
    (front L cfg s inp).pwm0_out =
      if cfg.pwm0_min < cfg.pwm0_max then
        clamp_pwm L (pwm0_demand cfg (front L cfg s inp).throttle_out) cfg.pwm0_min cfg.pwm0_max
      else
        clamp_pwm L (pwm0_demand cfg (front L cfg s inp).throttle_out) cfg.pwm0_max cfg.pwm0_min := by
  simp [front, publish_pwm0_eq]

/-! ## The state switch, member by member -/

theorem engine_stop_eq (cfg : Config) (s : Status) (tick : Nat) :
    engine_stop cfg s tick =
      { s with engine_stop_ms := tick, ignition := false, pump := false,
               pwm1_out := cfg.pwm1_min } := by
  simp [engine_stop, engine_crank]

/-- What `running_guards` leaves when the over-rev guard fires. -/
theorem running_guards_overrev (cfg : Config) (s : Status) (tick : Nat)
    (h : s.rpm > cfg.rpm_limit) :
    running_guards cfg s tick = { engine_stop cfg s tick with state := State.STOPPED } := by
  unfold running_guards; rw [if_pos h]

@[simp] theorem start_case_rpm (cfg : Config) (s : Status) (rt : Nat) :
    (start_case cfg s rt).rpm = s.rpm := by
  unfold start_case engine_crank
  simp only [Bool.false_eq_true, if_false]
  split_ifs <;> rfl

@[simp] theorem start_case_throttle_in (cfg : Config) (s : Status) (rt : Nat) :
    (start_case cfg s rt).throttle_in = s.throttle_in := by
  unfold start_case engine_crank
  simp only [Bool.false_eq_true, if_false]
  split_ifs <;> rfl

/-! ## Claims -/

/-- C1. No over-rev escape: a cycle that begins in `RUNNING` or in `START` and
samples an rpm above `config.rpm_limit` ends in `STOPPED`, with the crank
channel at `config.pwm1_min` and `engine_stop_ms` set to the tick read by
`engine_stop`, whatever the other members and inputs are. -/
theorem overrev_stops (L : Int) (cfg : Config) (s : Status) (inp : Input)
    (hstate : s.state = State.RUNNING ∨ s.state = State.START)
    (hrpm : inp.rpm > cfg.rpm_limit) :
    (cycle L cfg s inp).state = State.STOPPED ∧
    (cycle L cfg s inp).pwm1_out = cfg.pwm1_min ∧
    (cycle L cfg s inp).engine_stop_ms = inp.tick := by
  rw [cycle_eq_front]
  rcases hstate with h | h
  · have hs : (front L cfg s inp).state = State.RUNNING := by simp [h]
    unfold state_step
    rw [hs]
    simp only []
    rw [running_guards_overrev _ _ _ (by simpa using hrpm), engine_stop_eq]
    exact ⟨rfl, rfl, rfl⟩
  · have hs : (front L cfg s inp).state = State.START := by simp [h]
    unfold state_step
    rw [hs]
    simp only []
    rw [running_guards_overrev _ _ _ (by simpa using hrpm), engine_stop_eq]
    exact ⟨rfl, rfl, rfl⟩

/-- C1 at a concrete input: 9000 rpm against a limit of 8000, in `RUNNING`. -/
theorem overrev_stops_witness :
    (st_running.state = State.RUNNING ∨ st_running.state = State.START) ∧
    inp_overrev.rpm > cfg_demo.rpm_limit ∧
    (cycle 2200 cfg_demo st_running inp_overrev).state = State.STOPPED ∧
    (cycle 2200 cfg_demo st_running inp_overrev).pwm1_out = 1000 ∧
    (cycle 2200 cfg_demo st_running inp_overrev).engine_stop_ms = 5001 :=
  ⟨Or.inl rfl, by decide,
    overrev_stops 2200 cfg_demo st_running inp_overrev (Or.inl rfl) (by decide)⟩

/-- C2. Clamp range: for every `int16_t` value `v` and `uint16_t` bounds
`low <= high`, the value `clamp_pwm(v, low, high)` returns lies in
`[low, high]`; this covers negative `v` and `v` above `PWM_LIMIT`. -/
theorem clamp_pwm_in_range (L v : Int) (low high : Nat)
    (_hv : -32768 ≤ v ∧ v ≤ 32767) (hhigh : high < 65536) (hle : low ≤ high) :
    low ≤ clamp_pwm L v low high ∧ clamp_pwm L v low high ≤ high :=
  clamp_pwm_range L v low high (by omega) hhigh hle

/-- C2 at a negative value: the result is inside the bounds. -/
theorem clamp_pwm_in_range_witness :
    ((-32768 : Int) ≤ -5 ∧ (-5 : Int) ≤ 32767) ∧ (2000 : Nat) < 65536 ∧ (1000 : Nat) ≤ 2000 ∧
    1000 ≤ clamp_pwm 2200 (-5) 1000 2000 ∧ clamp_pwm 2200 (-5) 1000 2000 ≤ 2000 :=
  ⟨by decide, by decide, by decide,
    clamp_pwm_in_range 2200 (-5) 1000 2000 (by decide) (by decide) (by decide)⟩

/-- C3 as stated fails: whatever positive `int16_t` value the sentinel
`PWM_LIMIT` has, the value `v = PWM_LIMIT` itself is not replaced by 0 (the
test is `v > PWM_LIMIT`), and between the bounds 0 and 65535 it is returned
unchanged instead of the lower bound. -/
theorem clamp_pwm_at_limit_not_low :
    ¬ ∃ L : Int, 0 < L ∧ L ≤ 32767 ∧
      ∀ (v : Int) (low high : Nat), -32768 ≤ v → v ≤ 32767 → high < 65536 → low ≤ high →
        v ≥ L → clamp_pwm L v low high = low := by
  rintro ⟨L, hpos, hmax, h⟩
  have h1 := h L 0 65535 (by omega) hmax (by decide) (by decide) (le_refl L)
  rw [clamp_pwm_eq L L 0 65535 (by decide) (by decide)] at h1
  simp only [gt_iff_lt, lt_self_iff_false, if_false, not_lt_zero'] at h1
  have h2 := to_u16_lt L
  rw [if_neg (by omega)] at h1
  unfold to_u16 at h1
  omega

/-- C3, amended: for every value strictly above `PWM_LIMIT` and every pair of
bounds, `clamp_pwm` returns the lower bound it was given; a throttle demand
above the sentinel is therefore published as the smaller of `pwm0_min` and
`pwm0_max`. -/
theorem clamp_pwm_above_limit (L v : Int) (hv : v > L) :
    (∀ low high : Nat, low < 65536 → clamp_pwm L v low high = low) ∧
    (∀ (cfg : Config) (s : Status), cfg.wf → pwm0_demand cfg s.throttle_out = v →
      (publish_pwm0 L cfg s).pwm0_out = min cfg.pwm0_min cfg.pwm0_max) := by
  have key : ∀ low high : Nat, low < 65536 → clamp_pwm L v low high = low := by
    intro low high hlow
    unfold clamp_pwm CLAMP
    simp only [hv, if_true]
    have h0 : to_u16 0 = 0 := rfl
    rw [h0]
    simp only [gt_iff_lt, not_lt_zero', if_false]
    by_cases hl : 0 < low
    · rw [if_pos hl]; exact to_u16_to_i16_natCast low hlow
    · rw [if_neg hl, h0]; omega
  refine ⟨key, ?_⟩
  intro cfg s hwf hd
  obtain ⟨h0, h1, -⟩ := hwf
  rw [publish_pwm0_eq]
  simp only [hd]
  split_ifs with hlt
  · rw [key _ _ h0]; omega
  · rw [key _ _ h1]; omega

/-- C3, amended, on the scenario of the specification: bounds 1000 and 2000, a
demand of 2500 and a sentinel of 2200 give 1000. -/
theorem clamp_pwm_above_limit_witness :
    (2500 : Int) > 2200 ∧ clamp_pwm 2200 2500 1000 2000 = 1000 :=
  ⟨by decide, (clamp_pwm_above_limit 2200 2500 (by decide)).1 1000 2000 (by decide)⟩

/-- C4. Wrap safety: for true times `T_t <= T_now` at most 65535 apart, the
16-bit difference of their residues equals `T_now - T_t`, also when the residue
of `T_now` is the smaller one.  So `run_time_ms`, the difference taken against
`engine_start_ms`, equals `T_now - T_t`; the `PRIME` guard on
`ms - engine_prime_ms` fires exactly when `T_now - T_t > 1000`; and the
`STOPPED` guard on `ms - engine_stop_ms` holds the machine while
`T_now - T_t <= dwell_time_ms`. -/
theorem elapsed_wrap_safe (T_now T_t : Nat) (hle : T_t ≤ T_now) (hrange : T_now - T_t ≤ 65535) :
    sub16 (T_now % 65536) (T_t % 65536) = T_now - T_t ∧
    (∀ s : Status, s.engine_start_ms = T_t % 65536 →
      (s.state = State.RUNNING ∨ s.state = State.START ∨ s.state = State.CRANK) →
      run_time_ms s (T_now % 65536) = T_now - T_t) ∧
    (∀ (cfg : Config) (s : Status) (rt tick : Nat), s.state = State.PRIME →
      s.engine_prime_ms = T_t % 65536 →
      ((state_step cfg s (T_now % 65536) rt tick).state = State.STOPPED ↔
        T_now - T_t > 1000)) ∧
    (∀ (cfg : Config) (s : Status) (rt tick : Nat), s.state = State.STOPPED →
      s.engine_stop_ms = T_t % 65536 → T_now - T_t ≤ cfg.dwell_time_ms →
      state_step cfg s (T_now % 65536) rt tick = s) := by
  have key : sub16 (T_now % 65536) (T_t % 65536) = T_now - T_t := by
    unfold sub16; omega
  refine ⟨key, ?_, ?_, ?_⟩
  · intro s hs hst
    unfold run_time_ms
    rw [if_pos hst, hs, key]
  · intro cfg s rt tick hst hp
    unfold state_step
    rw [hst]
    simp only []
    rw [hp, key]
    by_cases h : T_now - T_t > 1000
    · rw [if_pos h]; simp [h]
    · rw [if_neg h]; simp [h, hst]
  · intro cfg s rt tick hst hp hd
    unfold state_step
    rw [hst]
    simp only []
    unfold stopped_case
    rw [hp, key, if_neg (by omega)]

/-- C4 on a wraparound pair: written at 65000, read at 66000 (residue 464). -/
theorem elapsed_wrap_safe_witness :
    (65000 : Nat) ≤ 66000 ∧ 66000 - 65000 ≤ 65535 ∧ (66000 % 65536 < 65000 % 65536) ∧
    sub16 (66000 % 65536) (65000 % 65536) = 66000 - 65000 :=
  ⟨by decide, by decide, by decide, (elapsed_wrap_safe 66000 65000 (by decide) (by decide)).1⟩

/-- C5 as stated fails: in `RUNNING` with `run_time_ms == dwell_time_ms`
(500), a live throttle fraction of 1/2 and a cranking fraction of 1/5,
`throttle` returns 1/2, not the cranking fraction. -/
theorem throttle_at_dwell_not_start :
    cfg_demo.thr_min < cfg_demo.thr_max ∧ cfg_demo.dwell_time_ms > 0 ∧
    st_running.state = State.RUNNING ∧
    throttle_start cfg_demo = 1 / 5 ∧
    throttle cfg_demo st_running cfg_demo.dwell_time_ms = 1 / 2 ∧
    throttle cfg_demo st_running cfg_demo.dwell_time_ms ≠ throttle_start cfg_demo := by
  have h1 : throttle_start cfg_demo = 1 / 5 := by
    simp [throttle_start, cfg_demo, sub16]; norm_num
  have h2 : throttle cfg_demo st_running cfg_demo.dwell_time_ms = 1 / 2 := by
    simp [throttle, cfg_demo, st_running]
  refine ⟨by decide, by decide, rfl, h1, h2, ?_⟩
  rw [h1, h2]; norm_num

/-- C5, amended: in `RUNNING` with `run_time_ms == dwell_time_ms` the weight
formula `(run_time_ms - dwell_time_ms) / dwell_time_ms` evaluates to 0, but
`throttle` does not blend there (the blend needs `run_time_ms >
dwell_time_ms`) and returns `status.throttle_in`. -/
theorem throttle_at_dwell (cfg : Config) (s : Status)
    (hstate : s.state = State.RUNNING) :
    blend_weight cfg cfg.dwell_time_ms = 0 ∧
    throttle cfg s cfg.dwell_time_ms = s.throttle_in := by
  constructor
  · have h0 : sub16 cfg.dwell_time_ms cfg.dwell_time_ms = 0 := by unfold sub16; omega
    simp [blend_weight, h0]
  · unfold throttle
    simp [hstate]

/-- C5, amended, at dwell 500 and a live throttle fraction of 1/2. -/
theorem throttle_at_dwell_witness :
    st_running.state = State.RUNNING ∧
    blend_weight cfg_demo cfg_demo.dwell_time_ms = 0 ∧
    throttle cfg_demo st_running cfg_demo.dwell_time_ms = st_running.throttle_in :=
  ⟨rfl, throttle_at_dwell cfg_demo st_running rfl⟩

/-- C6 as stated fails for `engine_prime_ms`: a prime time written at tick 0
is still 0 after the slide step of a cycle at tick 40000, where its age,
40000, is above 32767. -/
theorem slide_step_skips_prime :
    (slide_step st_primed 40000).engine_prime_ms = 0 ∧
    ¬ sub16 40000 (slide_step st_primed 40000).engine_prime_ms ≤ 32767 := by
  decide

/-- C6, amended: after the slide step of a cycle, whatever the lifecycle
state, `engine_stop_ms` and `engine_start_ms` have an age of at most 32767;
each of the two was reset to `ms - 32767` if its age exceeded 32767 and is
unchanged otherwise; `engine_prime_ms` is not slid, it is unchanged. -/
theorem slide_step_spec (s : Status) (ms : Nat) :
    sub16 ms (slide_step s ms).engine_stop_ms ≤ 32767 ∧
    sub16 ms (slide_step s ms).engine_start_ms ≤ 32767 ∧
    (sub16 ms s.engine_stop_ms > 32767 → (slide_step s ms).engine_stop_ms = sub16 ms 32767) ∧
    (sub16 ms s.engine_stop_ms ≤ 32767 → (slide_step s ms).engine_stop_ms = s.engine_stop_ms) ∧
    (sub16 ms s.engine_start_ms > 32767 → (slide_step s ms).engine_start_ms = sub16 ms 32767) ∧
    (sub16 ms s.engine_start_ms ≤ 32767 →
      (slide_step s ms).engine_start_ms = s.engine_start_ms) ∧
    (slide_step s ms).engine_prime_ms = s.engine_prime_ms ∧
    (slide_step s ms).state = s.state := by
  have age : ∀ t : Nat, sub16 ms (slide ms t) ≤ 32767 := by
    intro t
    unfold slide INT16_MAX
    split_ifs with h
    · unfold sub16; omega
    · omega
  have hi : ∀ t : Nat, sub16 ms t > 32767 → slide ms t = sub16 ms 32767 := by
    intro t h
    unfold slide INT16_MAX
    rw [if_pos h]
  have lo : ∀ t : Nat, sub16 ms t ≤ 32767 → slide ms t = t := by
    intro t h
    unfold slide INT16_MAX
    rw [if_neg (by omega)]
  exact ⟨age _, age _, hi _, lo _, hi _, lo _, rfl, rfl⟩

/-! ## Frame properties of the state switch -/

theorem state_step_pwm0_out (cfg : Config) (s : Status) (ms rt tick : Nat) :
    (state_step cfg s ms rt tick).pwm0_out = s.pwm0_out := by
  unfold state_step stopped_case start_case running_guards engine_stop engine_crank
  split <;> (try simp only [Bool.false_eq_true, if_false, if_true]) <;> split_ifs <;> rfl

theorem state_step_throttle_in (cfg : Config) (s : Status) (ms rt tick : Nat) :
    (state_step cfg s ms rt tick).throttle_in = s.throttle_in := by
  unfold state_step stopped_case start_case running_guards engine_stop engine_crank
  split <;> (try simp only [Bool.false_eq_true, if_false, if_true]) <;> split_ifs <;> rfl

theorem state_step_throttle_out (cfg : Config) (s : Status) (ms rt tick : Nat) :
    (state_step cfg s ms rt tick).throttle_out = s.throttle_out := by
  unfold state_step stopped_case start_case running_guards engine_stop engine_crank
  split <;> (try simp only [Bool.false_eq_true, if_false, if_true]) <;> split_ifs <;> rfl

theorem state_step_pwm1_out (cfg : Config) (s : Status) (ms rt tick : Nat) :
    (state_step cfg s ms rt tick).pwm1_out = s.pwm1_out ∨
    (state_step cfg s ms rt tick).pwm1_out = cfg.pwm1_min ∨
    (state_step cfg s ms rt tick).pwm1_out = cfg.pwm1_max := by
  unfold state_step stopped_case start_case running_guards engine_stop engine_crank
  split <;> (try simp only [Bool.false_eq_true, if_false, if_true]) <;> split_ifs <;> simp

/-- One cycle establishes the bounds of `pwm0_out` and keeps those of
`pwm1_out`. -/
theorem cycle_pwm_in_bounds (L : Int) (cfg : Config) (hwf : cfg.wf) (s : Status) (inp : Input)
    (h : pwm_in_bounds cfg s) : pwm_in_bounds cfg (cycle L cfg s inp) := by
  obtain ⟨h0, h1, -⟩ := hwf
  obtain ⟨-, -, h3, h4⟩ := h
  unfold pwm_in_bounds
  rw [cycle_eq_front, state_step_pwm0_out, front_pwm0_out]
  refine ⟨?_, ?_, ?_, ?_⟩
  · split_ifs with hlt
    · have := (clamp_pwm_range L (pwm0_demand cfg (front L cfg s inp).throttle_out)
        cfg.pwm0_min cfg.pwm0_max h0 h1 (by omega)).1
      omega
    · have := (clamp_pwm_range L (pwm0_demand cfg (front L cfg s inp).throttle_out)
        cfg.pwm0_max cfg.pwm0_min h1 h0 (by omega)).1
      omega
  · split_ifs with hlt
    · have := (clamp_pwm_range L (pwm0_demand cfg (front L cfg s inp).throttle_out)
        cfg.pwm0_min cfg.pwm0_max h0 h1 (by omega)).2
      omega
    · have := (clamp_pwm_range L (pwm0_demand cfg (front L cfg s inp).throttle_out)
        cfg.pwm0_max cfg.pwm0_min h1 h0 (by omega)).2
      omega
  · rcases state_step_pwm1_out cfg (front L cfg s inp) inp.ms (cycle_run_time s inp.ms) inp.tick
      with h | h | h <;> rw [h] <;> (try rw [front_pwm1_out]) <;> omega
  · rcases state_step_pwm1_out cfg (front L cfg s inp) inp.ms (cycle_run_time s inp.ms) inp.tick
      with h | h | h <;> rw [h] <;> (try rw [front_pwm1_out]) <;> omega

theorem run_pwm_in_bounds (L : Int) (cfg : Config) (hwf : cfg.wf) (inps : List Input) :
    ∀ s : Status, pwm_in_bounds cfg s → pwm_in_bounds cfg (run L cfg s inps) := by
  induction inps with
  | nil => intro s h; exact h
  | cons i rest ih =>
    intro s h
    exact ih (cycle L cfg s i) (cycle_pwm_in_bounds L cfg hwf s i h)

/-- C7. PWM output invariant: for every configuration, reversed bounds
included, `pwm0_out` and `pwm1_out` lie between their configured bounds
(taken in either order) after `default_state()`, on entry to the loop and
after every control cycle that follows, whatever was sampled. -/
theorem pwm_out_invariant (L : Int) (cfg : Config) (hwf : cfg.wf) :
    pwm_in_bounds cfg (default_state cfg) ∧
    (∀ (ms0 : Nat) (inps : List Input), pwm_in_bounds cfg (run L cfg (boot cfg ms0) inps)) ∧
    (∀ (s : Status) (inp : Input), pwm_in_bounds cfg s →
      pwm_in_bounds cfg (cycle L cfg s inp)) := by
  have hd : pwm_in_bounds cfg (default_state cfg) := by
    unfold pwm_in_bounds default_state
    simp only []
    omega
  refine ⟨hd, ?_, ?_⟩
  · intro ms0 inps
    exact run_pwm_in_bounds L cfg hwf inps (boot cfg ms0) hd
  · intro s inp h
    exact cycle_pwm_in_bounds L cfg hwf s inp h

/-- C7 on a reversed throttle servo (`pwm0_min` 2000, `pwm0_max` 1000), after
the eight cycles of `inps_three_failed`. -/
theorem pwm_out_invariant_witness :
    cfg_reversed.wf ∧
    pwm_in_bounds cfg_reversed (run 2200 cfg_reversed (boot cfg_reversed 0) inps_three_failed) :=
  ⟨by decide, (pwm_out_invariant 2200 cfg_reversed (by decide)).2.1 0 inps_three_failed⟩

/-! ## Throttle fractions -/

/-- A quotient of naturals `a <= b` with `0 < b` is a fraction in [0, 1]. -/
theorem nat_div_mem_unit (a b : Nat) (hab : a ≤ b) (hb : 0 < b) :
    0 ≤ (a : ℚ) / (b : ℚ) ∧ (a : ℚ) / (b : ℚ) ≤ 1 := by
  have hb' : (0 : ℚ) < (b : ℚ) := by exact_mod_cast hb
  have hab' : (a : ℚ) ≤ (b : ℚ) := by exact_mod_cast hab
  constructor
  · exact div_nonneg (by exact_mod_cast Nat.zero_le a) hb'.le
  · rw [div_le_one hb']; exact hab'

theorem throttle_fraction_mem_unit (L : Int) (cfg : Config) (hwf : cfg.wf)
    (hthr : cfg.thr_min < cfg.thr_max) (thr_in : Nat) :
    0 ≤ throttle_fraction L cfg thr_in ∧ throttle_fraction L cfg thr_in ≤ 1 := by
  obtain ⟨-, -, -, -, h4, h5, -⟩ := hwf
  have hr := clamp_pwm_range L (to_i16 thr_in) cfg.thr_min cfg.thr_max h4 h5 hthr.le
  have e1 : sub16 (clamp_pwm L (to_i16 thr_in) cfg.thr_min cfg.thr_max) cfg.thr_min =
      clamp_pwm L (to_i16 thr_in) cfg.thr_min cfg.thr_max - cfg.thr_min := by
    unfold sub16; omega
  have e2 : sub16 cfg.thr_max cfg.thr_min = cfg.thr_max - cfg.thr_min := by
    unfold sub16; omega
  unfold throttle_fraction
  simp only []
  rw [e1, e2, mul_one_div]
  exact nat_div_mem_unit _ _ (by omega) (by omega)

theorem throttle_start_mem_unit (cfg : Config) (hwf : cfg.wf)
    (hthr : cfg.thr_min < cfg.thr_max)
    (hstart : cfg.thr_min ≤ cfg.thr_start ∧ cfg.thr_start ≤ cfg.thr_max) :
    0 ≤ throttle_start cfg ∧ throttle_start cfg ≤ 1 := by
  obtain ⟨-, -, -, -, h4, h5, h6, -⟩ := hwf
  have e1 : sub16 cfg.thr_start cfg.thr_min = cfg.thr_start - cfg.thr_min := by
    unfold sub16; omega
  have e2 : sub16 cfg.thr_max cfg.thr_min = cfg.thr_max - cfg.thr_min := by
    unfold sub16; omega
  unfold throttle_start
  rw [e1, e2]
  exact nat_div_mem_unit _ _ (by omega) (by omega)

/-- Inside the blend window the weight is a fraction in [0, 1]. -/
theorem blend_weight_mem_unit (cfg : Config) (hwf : cfg.wf) (rt : Nat)
    (h1 : rt > cfg.dwell_time_ms) (h2 : rt < (2 * cfg.dwell_time_ms) % 65536) :
    0 ≤ blend_weight cfg rt ∧ blend_weight cfg rt ≤ 1 := by
  obtain ⟨-, -, -, -, -, -, -, h7, -⟩ := hwf
  have e1 : sub16 rt cfg.dwell_time_ms = rt - cfg.dwell_time_ms := by
    unfold sub16; omega
  unfold blend_weight
  rw [e1]
  exact nat_div_mem_unit _ _ (by omega) (by omega)

theorem throttle_mem_unit (cfg : Config) (hwf : cfg.wf) (hthr : cfg.thr_min < cfg.thr_max)
    (hstart : cfg.thr_min ≤ cfg.thr_start ∧ cfg.thr_start ≤ cfg.thr_max)
    (s : Status) (rt : Nat) (hin : 0 ≤ s.throttle_in ∧ s.throttle_in ≤ 1) :
    0 ≤ throttle cfg s rt ∧ throttle cfg s rt ≤ 1 := by
  have hs := throttle_start_mem_unit cfg hwf hthr hstart
  unfold throttle
  split_ifs with c1 c2
  · exact hs
  · have hw := blend_weight_mem_unit cfg hwf rt c2.2.1 c2.2.2
    generalize blend_weight cfg rt = w at hw
    generalize throttle_start cfg = y at hs
    generalize s.throttle_in = x at hin
    obtain ⟨hw0, hw1⟩ := hw
    obtain ⟨hy0, hy1⟩ := hs
    obtain ⟨hx0, hx1⟩ := hin
    have a1 : 0 ≤ w * x := mul_nonneg hw0 hx0
    have a2 : 0 ≤ (1 - w) * y := mul_nonneg (by linarith) hy0
    have a3 : w * x ≤ w := by nlinarith
    have a4 : (1 - w) * y ≤ 1 - w := by nlinarith
    constructor <;> linarith
  · exact hin

/-- C8 as stated fails: with `thr_min` 1000, `thr_max` 2000, positive dwell
and crank times and `thr_start` 2500, a cycle that begins in `CRANK` leaves
`throttle_out` at 3/2, whatever the sentinel `PWM_LIMIT` is. -/
theorem throttle_out_above_one :
    cfg_start_high.wf ∧ cfg_start_high.thr_min < cfg_start_high.thr_max ∧
    0 < cfg_start_high.dwell_time_ms ∧ 0 < cfg_start_high.start_time_ms ∧
    st_cranking.state = State.CRANK ∧
    ¬ ∃ L : Int, (cycle L cfg_start_high st_cranking (inp_idle 1100)).throttle_out ≤ 1 := by
  refine ⟨by decide, by decide, by decide, by decide, rfl, ?_⟩
  rintro ⟨L, h⟩
  rw [cycle_eq_front, state_step_throttle_out, front_throttle_out] at h
  have e : sub16 2500 1000 = 1500 := by decide
  have e2 : sub16 2000 1000 = 1000 := by decide
  simp [throttle, st_cranking, throttle_start, cfg_start_high, cfg_demo, e, e2] at h
  norm_num at h

/-- C8, amended: for every configuration with `thr_min < thr_max` whose start
threshold lies inside the calibrated range, `thr_min <= thr_start <= thr_max`,
every raw throttle reading, every lifecycle state and every run time, the
fractions a control cycle computes satisfy `0 <= throttle_in <= 1` and
`0 <= throttle_out <= 1`. -/
theorem throttle_fractions_in_unit (L : Int) (cfg : Config) (s : Status) (inp : Input)
    (hwf : cfg.wf) (hthr : cfg.thr_min < cfg.thr_max)
    (hstart : cfg.thr_min ≤ cfg.thr_start ∧ cfg.thr_start ≤ cfg.thr_max) :
    0 ≤ (cycle L cfg s inp).throttle_in ∧ (cycle L cfg s inp).throttle_in ≤ 1 ∧
    0 ≤ (cycle L cfg s inp).throttle_out ∧ (cycle L cfg s inp).throttle_out ≤ 1 := by
  have hin := throttle_fraction_mem_unit L cfg hwf hthr inp.thr_in
  rw [cycle_eq_front, state_step_throttle_in, state_step_throttle_out, front_throttle_in,
    front_throttle_out]
  have hout := throttle_mem_unit cfg hwf hthr hstart
    { s with throttle_in := throttle_fraction L cfg inp.thr_in } (cycle_run_time s inp.ms) hin
  exact ⟨hin.1, hin.2, hout.1, hout.2⟩

/-- C8, amended, on a cycle that begins in `CRANK` with `thr_start` 1200. -/
theorem throttle_fractions_in_unit_witness :
    cfg_demo.wf ∧ cfg_demo.thr_min < cfg_demo.thr_max ∧
    (cfg_demo.thr_min ≤ cfg_demo.thr_start ∧ cfg_demo.thr_start ≤ cfg_demo.thr_max) ∧
    0 ≤ (cycle 2200 cfg_demo st_cranking (inp_idle 1100)).throttle_in ∧
    (cycle 2200 cfg_demo st_cranking (inp_idle 1100)).throttle_in ≤ 1 ∧
    0 ≤ (cycle 2200 cfg_demo st_cranking (inp_idle 1100)).throttle_out ∧
    (cycle 2200 cfg_demo st_cranking (inp_idle 1100)).throttle_out ≤ 1 :=
  ⟨by decide, by decide, by decide,
    throttle_fractions_in_unit 2200 cfg_demo st_cranking (inp_idle 1100)
      (by decide) (by decide) (by decide)⟩

/-! ## The `STOPPED` and `START` cases -/

/-- A cycle that begins in `STOPPED` with the attempt counter at `auto_start`
and the raw throttle not below `thr_start` changes neither `starts` nor
`pwm1_out`, and ends in `STOPPED` or, by a manual start, in `START`. -/
theorem cycle_exhausted (L : Int) (cfg : Config) (s : Status) (inp : Input)
    (hst : s.state = State.STOPPED) (hex : s.starts = cfg.auto_start)
    (hthr : ¬ inp.thr_in < cfg.thr_start) :
    ((cycle L cfg s inp).state = State.STOPPED ∨
      ((cycle L cfg s inp).state = State.START ∧ inp.rpm > 0)) ∧
    (cycle L cfg s inp).pwm1_out = s.pwm1_out ∧
    (cycle L cfg s inp).starts = s.starts := by
  rw [cycle_eq_front]
  have hs : (front L cfg s inp).state = State.STOPPED := by simp [hst]
  unfold state_step
  rw [hs]
  simp only []
  unfold stopped_case
  simp only [front_thr_in, front_rpm, front_starts, hthr, and_false, if_false, hex,
    lt_self_iff_false]
  split_ifs with h1 h2
  · exact ⟨Or.inr ⟨rfl, h2.1⟩, by simp, by simp [hex]⟩
  · exact ⟨Or.inl hs, by simp, by simp [hex]⟩
  · exact ⟨Or.inl hs, by simp, by simp [hex]⟩

/-- With no rotation sampled, the exhausted hold lasts over any number of
cycles whose raw throttle stays at or above `thr_start`. -/
theorem run_exhausted (L : Int) (cfg : Config) (inps : List Input) :
    ∀ s : Status, s.state = State.STOPPED → s.starts = cfg.auto_start →
      (∀ i ∈ inps, ¬ i.thr_in < cfg.thr_start ∧ i.rpm = 0) →
      (run L cfg s inps).state = State.STOPPED ∧
      (run L cfg s inps).pwm1_out = s.pwm1_out ∧
      (run L cfg s inps).starts = s.starts := by
  induction inps with
  | nil => intro s hst _ _; exact ⟨hst, rfl, rfl⟩
  | cons i rest ih =>
    intro s hst hex hall
    have hi := hall i (List.mem_cons_self i rest)
    obtain ⟨c1, c2, c3⟩ := cycle_exhausted L cfg s i hst hex hi.1
    have hstate : (cycle L cfg s i).state = State.STOPPED := by
      rcases c1 with h | ⟨_, h⟩
      · exact h
      · omega
    have := ih (cycle L cfg s i) hstate (by rw [c3, hex])
      (fun j hj => hall j (List.mem_cons_of_mem i hj))
    show (run L cfg (cycle L cfg s i) rest).state = State.STOPPED ∧
      (run L cfg (cycle L cfg s i) rest).pwm1_out = s.pwm1_out ∧
      (run L cfg (cycle L cfg s i) rest).starts = s.starts
    rw [this.2.1, this.2.2, c2, c3]
    exact ⟨this.1, rfl, rfl⟩

/-- In a cycle that begins in `STOPPED`, a nonzero `starts` becomes 0 only
through the reset guard: the stop dwell has elapsed and the raw throttle is
below `thr_start`. -/
theorem cycle_starts_reset (L : Int) (cfg : Config) (s : Status) (inp : Input)
    (hwf : cfg.wf) (hst : s.state = State.STOPPED) (hne : s.starts ≠ 0)
    (hzero : (cycle L cfg s inp).starts = 0) :
    inp.thr_in < cfg.thr_start ∧
    sub16 inp.ms (slide inp.ms s.engine_stop_ms) > cfg.dwell_time_ms := by
  have ha : cfg.auto_start < 65536 := hwf.2.2.2.2.2.2.2.2.2.2
  rw [cycle_eq_front] at hzero
  have hs : (front L cfg s inp).state = State.STOPPED := by simp [hst]
  unfold state_step at hzero
  rw [hs] at hzero
  simp only [] at hzero
  unfold stopped_case engine_crank at hzero
  simp only [front_thr_in, front_rpm, front_starts, front_engine_stop_ms, if_true] at hzero
  by_cases hd : sub16 inp.ms (slide inp.ms s.engine_stop_ms) > cfg.dwell_time_ms
  · refine ⟨?_, hd⟩
    by_contra hthr
    simp only [hd, if_true, hthr, and_false, if_false, front_rpm, front_throttle_in,
      front_starts, front_thr_in] at hzero
    split_ifs at hzero with h2 h3
    · simp at hzero; exact hne hzero
    · simp at hzero; omega
    · simp at hzero; exact hne hzero
  · simp only [hd, if_false, front_starts] at hzero
    exact absurd hzero hne

/-- C9. Auto-crank exhaustion hold: a cycle that begins in `STOPPED` with
`auto_start > 0`, `starts == auto_start` and the raw throttle not below
`thr_start` does not end in `CRANK`, leaves `pwm1_out` as it was (the crank
channel is not driven to `pwm1_max`) and leaves `starts` unchanged; with no
rotation sampled this lasts over every later cycle.  In `STOPPED` a nonzero
`starts` is set back to 0 only on a cycle where the raw throttle is below
`thr_start` and the stop dwell has elapsed. -/
theorem autocrank_exhaustion_hold (L : Int) (cfg : Config) (s : Status)
    (hwf : cfg.wf) (hst : s.state = State.STOPPED) :
    (cfg.auto_start > 0 → s.starts = cfg.auto_start →
      (∀ inp : Input, ¬ inp.thr_in < cfg.thr_start →
        (cycle L cfg s inp).state ≠ State.CRANK ∧
        (cycle L cfg s inp).pwm1_out = s.pwm1_out ∧
        (cycle L cfg s inp).starts = s.starts) ∧
      (∀ inps : List Input, (∀ i ∈ inps, ¬ i.thr_in < cfg.thr_start ∧ i.rpm = 0) →
        (run L cfg s inps).state = State.STOPPED ∧
        (run L cfg s inps).pwm1_out = s.pwm1_out ∧
        (run L cfg s inps).starts = s.starts)) ∧
    (∀ inp : Input, s.starts ≠ 0 → (cycle L cfg s inp).starts = 0 →
      inp.thr_in < cfg.thr_start ∧
      sub16 inp.ms (slide inp.ms s.engine_stop_ms) > cfg.dwell_time_ms) := by
  refine ⟨?_, ?_⟩
  · intro _ hex
    refine ⟨?_, ?_⟩
    · intro inp hthr
      obtain ⟨c1, c2, c3⟩ := cycle_exhausted L cfg s inp hst hex hthr
      refine ⟨?_, c2, c3⟩
      rcases c1 with h | ⟨h, _⟩ <;> rw [h] <;> decide
    · intro inps hall
      exact run_exhausted L cfg inps s hst hex hall
  · intro inp hne hzero
    exact cycle_starts_reset L cfg s inp hwf hst hne hzero

/-- The scenario of C9: after three crank attempts that each ran past
`start_time_ms` the machine is `STOPPED` with `starts == 3 == auto_start`, and
it is still so, starter off, after two more cycles with the throttle above
`thr_start`. -/
theorem autocrank_exhaustion_hold_witness :
    cfg_demo.wf ∧ cfg_demo.auto_start = 3 ∧
    (run 2200 cfg_demo (boot cfg_demo 0) inps_three_failed).state = State.STOPPED ∧
    (run 2200 cfg_demo (boot cfg_demo 0) inps_three_failed).starts = 3 ∧
    (run 2200 cfg_demo (boot cfg_demo 0) inps_three_failed).pwm1_out = 1000 ∧
    (run 2200 cfg_demo (run 2200 cfg_demo (boot cfg_demo 0) inps_three_failed)
      [inp_idle 8200, inp_idle 9000]).state = State.STOPPED ∧
    (run 2200 cfg_demo (run 2200 cfg_demo (boot cfg_demo 0) inps_three_failed)
      [inp_idle 8200, inp_idle 9000]).pwm1_out = 1000 ∧
    (run 2200 cfg_demo (run 2200 cfg_demo (boot cfg_demo 0) inps_three_failed)
      [inp_idle 8200, inp_idle 9000]).starts = 3 := by
  have h1 : (run 2200 cfg_demo (boot cfg_demo 0) inps_three_failed).state = State.STOPPED := by
    decide
  have h2 : (run 2200 cfg_demo (boot cfg_demo 0) inps_three_failed).starts = 3 := by
    decide
  have h3 : (run 2200 cfg_demo (boot cfg_demo 0) inps_three_failed).pwm1_out = 1000 := by
    decide
  have h := ((autocrank_exhaustion_hold 2200 cfg_demo
    (run 2200 cfg_demo (boot cfg_demo 0) inps_three_failed) (by decide) h1).1
      (by decide) h2).2 [inp_idle 8200, inp_idle 9000] (by decide)
  rw [h2, h3] at h
  exact ⟨by decide, rfl, h1, h2, h3, h⟩

/-- The `START` case followed by the shared guards, when none of the guards
fires: the outcome is decided by the dwell test alone. -/
theorem running_guards_pass (cfg : Config) (s : Status) (tick : Nat)
    (h1 : ¬ s.rpm > cfg.rpm_limit) (h2 : ¬ s.throttle_in ≤ 0) (h3 : ¬ s.rpm = 0) :
    running_guards cfg s tick = s := by
  unfold running_guards
  rw [if_neg h1, if_neg h2, if_neg h3]

/-- C10. Start success: a cycle that begins in `START` with `rpm > 0`,
`rpm <= rpm_limit` and `throttle_in > 0` ends in `RUNNING` with `starts == 0`
when its `run_time_ms` exceeds `dwell_time_ms`; when `run_time_ms <=
dwell_time_ms` it stays in `START` and `starts` is unchanged. -/
theorem start_success (L : Int) (cfg : Config) (s : Status) (inp : Input)
    (hst : s.state = State.START) (hrpm : inp.rpm > 0) (hlim : inp.rpm ≤ cfg.rpm_limit)
    (hthr : 0 < throttle_fraction L cfg inp.thr_in) :
    (cycle_run_time s inp.ms > cfg.dwell_time_ms →
      (cycle L cfg s inp).state = State.RUNNING ∧ (cycle L cfg s inp).starts = 0) ∧
    (cycle_run_time s inp.ms ≤ cfg.dwell_time_ms →
      (cycle L cfg s inp).state = State.START ∧ (cycle L cfg s inp).starts = s.starts) := by
  have hs : (front L cfg s inp).state = State.START := by simp [hst]
  have hstep : cycle L cfg s inp =
      start_case cfg (front L cfg s inp) (cycle_run_time s inp.ms) := by
    rw [cycle_eq_front]
    unfold state_step
    rw [hs]
    simp only []
    apply running_guards_pass
    · rw [start_case_rpm, front_rpm]; omega
    · rw [start_case_throttle_in, front_throttle_in]; exact not_le.mpr hthr
    · rw [start_case_rpm, front_rpm]; omega
  rw [hstep]
  unfold start_case engine_crank
  simp only [Bool.false_eq_true, if_false]
  constructor
  · intro hd
    split_ifs with c1 c2 c3
    · exact ⟨rfl, rfl⟩
    · exact absurd ⟨by simpa using hrpm, hd⟩ c2
    · exact ⟨rfl, rfl⟩
    · exact absurd ⟨by simpa using hrpm, hd⟩ c3
  · intro hd
    split_ifs with c1 c2 c3
    · exact absurd c2.2 (by omega)
    · exact ⟨by simp [hst], by simp⟩
    · exact absurd c3.2 (by omega)
    · exact ⟨by simp [hst], by simp⟩

/-- The scenario of C10: dwell 500 ms, start recorded at tick 1000, 10 rpm
sampled at tick 1600 (run time 600): the cycle ends in `RUNNING` with
`starts == 0`. -/
theorem start_success_witness :
    st_started.state = State.START ∧ st_started.engine_start_ms = 1000 ∧
    cfg_demo.dwell_time_ms = 500 ∧ (inp_turning 1600).rpm = 10 ∧
    (inp_turning 1600).rpm ≤ cfg_demo.rpm_limit ∧
    0 < throttle_fraction 2200 cfg_demo (inp_turning 1600).thr_in ∧
    cycle_run_time st_started (inp_turning 1600).ms = 600 ∧
    (cycle 2200 cfg_demo st_started (inp_turning 1600)).state = State.RUNNING ∧
    (cycle 2200 cfg_demo st_started (inp_turning 1600)).starts = 0 := by
  have hf : 0 < throttle_fraction 2200 cfg_demo (inp_turning 1600).thr_in := by
    have e1 : clamp_pwm 2200 (to_i16 ((1500 : Nat) : Int)) 1000 2000 = 1500 := by decide
    have e2 : sub16 1500 1000 = 500 := by decide
    have e3 : sub16 2000 1000 = 1000 := by decide
    simp only [throttle_fraction, cfg_demo, inp_turning, e1, e2, e3]
    norm_num
  exact ⟨rfl, rfl, rfl, rfl, by decide, hf, by decide,
    (start_success 2200 cfg_demo st_started (inp_turning 1600) rfl (by decide) (by decide) hf).1
      (by decide)⟩

/-! ## Throttle cut and manual start -/

/-- A value above the sentinel is replaced by 0 and clamps to the lower bound. -/
theorem clamp_pwm_gt_limit (L v : Int) (low high : Nat) (hv : v > L) (hlow : low < 65536) :
    clamp_pwm L v low high = low := by
  unfold clamp_pwm CLAMP
  simp only [hv, if_true]
  have h0 : to_u16 0 = 0 := rfl
  rw [h0]
  simp only [gt_iff_lt, not_lt_zero', if_false]
  by_cases hl : 0 < low
  · rw [if_pos hl]; exact to_u16_to_i16_natCast low hlow
  · rw [if_neg hl, h0]; omega

/-- What `running_guards` leaves when the throttle fraction is not positive. -/
theorem running_guards_throttle_cut (cfg : Config) (s : Status) (tick : Nat)
    (h : s.throttle_in ≤ 0) :
    running_guards cfg s tick = { engine_stop cfg s tick with state := State.STOPPED } := by
  unfold running_guards
  by_cases h1 : s.rpm > cfg.rpm_limit
  · rw [if_pos h1]
  · rw [if_neg h1, if_pos h]

/-- Where the fail-safe does work: for every configuration with `thr_min <
thr_max` and every cycle that begins in `START` or `RUNNING` in which the raw
reading is still above `PWM_LIMIT` after its conversion to `int16_t`, the
throttle fraction of that cycle is 0 and the cycle ends in `STOPPED` with
`pwm1_out == pwm1_min`. -/
theorem missing_throttle_stops (L : Int) (cfg : Config) (s : Status) (inp : Input)
    (hwf : cfg.wf) (_hthr : cfg.thr_min < cfg.thr_max)
    (hstate : s.state = State.START ∨ s.state = State.RUNNING)
    (hin : to_i16 inp.thr_in > L) :
    (cycle L cfg s inp).throttle_in = 0 ∧
    (cycle L cfg s inp).state = State.STOPPED ∧
    (cycle L cfg s inp).pwm1_out = cfg.pwm1_min := by
  have h4 : cfg.thr_min < 65536 := hwf.2.2.2.2.1
  have hf : throttle_fraction L cfg inp.thr_in = 0 := by
    have e : sub16 cfg.thr_min cfg.thr_min = 0 := by unfold sub16; omega
    simp only [throttle_fraction, clamp_pwm_gt_limit L _ cfg.thr_min cfg.thr_max hin h4, e]
    simp
  have hti : (cycle L cfg s inp).throttle_in = 0 := by
    rw [cycle_eq_front, state_step_throttle_in, front_throttle_in, hf]
  refine ⟨hti, ?_⟩
  rw [cycle_eq_front]
  rcases hstate with h | h
  · have hs : (front L cfg s inp).state = State.START := by simp [h]
    unfold state_step
    rw [hs]
    simp only []
    rw [running_guards_throttle_cut _ _ _
      (by rw [start_case_throttle_in, front_throttle_in, hf]), engine_stop_eq]
    exact ⟨rfl, rfl⟩
  · have hs : (front L cfg s inp).state = State.RUNNING := by simp [h]
    unfold state_step
    rw [hs]
    simp only []
    rw [running_guards_throttle_cut _ _ _ (by rw [front_throttle_in, hf]), engine_stop_eq]
    exact ⟨rfl, rfl⟩

/-- The fail-safe on a reading of 2400 against a sentinel of 2200, in
`RUNNING`. -/
theorem missing_throttle_stops_witness :
    cfg_demo.wf ∧ cfg_demo.thr_min < cfg_demo.thr_max ∧
    (st_running.state = State.START ∨ st_running.state = State.RUNNING) ∧
    to_i16 (inp_thr_lost 5000).thr_in > 2200 ∧
    (cycle 2200 cfg_demo st_running (inp_thr_lost 5000)).throttle_in = 0 ∧
    (cycle 2200 cfg_demo st_running (inp_thr_lost 5000)).state = State.STOPPED ∧
    (cycle 2200 cfg_demo st_running (inp_thr_lost 5000)).pwm1_out = 1000 :=
  ⟨by decide, by decide, Or.inr rfl, by decide,
    missing_throttle_stops 2200 cfg_demo st_running (inp_thr_lost 5000)
      (by decide) (by decide) (Or.inr rfl) (by decide)⟩

/-- The status a cycle that begins in `STOPPED` hands to `stopped_case`. -/
theorem cycle_stopped (L : Int) (cfg : Config) (s : Status) (inp : Input)
    (hst : s.state = State.STOPPED) :
    cycle L cfg s inp = stopped_case cfg (front L cfg s inp) inp.ms inp.tick := by
  have hs : (front L cfg s inp).state = State.STOPPED := by simp [hst]
  rw [cycle_eq_front]
  unfold state_step
  rw [hs]

/-- In `case STOPPED`, before the dwell has elapsed nothing is written. -/
theorem stopped_case_hold (cfg : Config) (t : Status) (ms tick : Nat)
    (hd : ¬ sub16 ms t.engine_stop_ms > cfg.dwell_time_ms) :
    stopped_case cfg t ms tick = t := by
  unfold stopped_case
  rw [if_neg hd]

/-- In `case STOPPED`, the manual-start branch: the members it leaves. -/
theorem stopped_case_manual (cfg : Config) (t : Status) (ms tick : Nat)
    (hd : sub16 ms t.engine_stop_ms > cfg.dwell_time_ms)
    (hman : t.rpm > 0 ∧ 0 < t.throttle_in) :
    (stopped_case cfg t ms tick).state = State.START ∧
    (stopped_case cfg t ms tick).engine_start_ms = tick ∧
    (stopped_case cfg t ms tick).engine_stop_ms = t.engine_stop_ms ∧
    (stopped_case cfg t ms tick).pwm1_out = t.pwm1_out ∧
    (stopped_case cfg t ms tick).starts =
      if cfg.auto_start ≠ 0 ∧ t.thr_in < cfg.thr_start then 0 else t.starts := by
  unfold stopped_case
  rw [if_pos hd]
  by_cases hreset : cfg.auto_start ≠ 0 ∧ t.thr_in < cfg.thr_start
  · rw [if_pos hreset]
    dsimp only
    rw [if_pos hman, if_pos hreset]
    exact ⟨rfl, rfl, rfl, rfl, rfl⟩
  · rw [if_neg hreset]
    dsimp only
    rw [if_pos hman, if_neg hreset]
    exact ⟨rfl, rfl, rfl, rfl, rfl⟩

/-- In `case STOPPED`, the auto-crank branch: the members it leaves. -/
theorem stopped_case_crank (cfg : Config) (t : Status) (ms tick : Nat)
    (hd : sub16 ms t.engine_stop_ms > cfg.dwell_time_ms)
    (hman : ¬ (t.rpm > 0 ∧ 0 < t.throttle_in))
    (hauto : cfg.auto_start ≠ 0 ∧ t.thr_in > cfg.thr_start ∧ t.starts < cfg.auto_start) :
    (stopped_case cfg t ms tick).state = State.CRANK ∧
    (stopped_case cfg t ms tick).engine_start_ms = tick ∧
    (stopped_case cfg t ms tick).engine_stop_ms = t.engine_stop_ms ∧
    (stopped_case cfg t ms tick).pwm1_out = cfg.pwm1_max ∧
    (stopped_case cfg t ms tick).starts = (t.starts + 1) % 65536 := by
  have hreset : ¬ (cfg.auto_start ≠ 0 ∧ t.thr_in < cfg.thr_start) := by
    intro h; omega
  unfold stopped_case engine_crank
  rw [if_pos hd, if_neg hreset]
  dsimp only
  rw [if_neg hman, if_pos hauto]
  simp

/-- In `case STOPPED`, with the dwell elapsed and neither branch taken only
the reset of `starts` is left. -/
theorem stopped_case_idle (cfg : Config) (t : Status) (ms tick : Nat)
    (hd : sub16 ms t.engine_stop_ms > cfg.dwell_time_ms)
    (hman : ¬ (t.rpm > 0 ∧ 0 < t.throttle_in))
    (hauto : ¬ (cfg.auto_start ≠ 0 ∧ t.thr_in > cfg.thr_start ∧ t.starts < cfg.auto_start)) :
    (stopped_case cfg t ms tick).state = t.state ∧
    (stopped_case cfg t ms tick).engine_start_ms = t.engine_start_ms ∧
    (stopped_case cfg t ms tick).engine_stop_ms = t.engine_stop_ms ∧
    (stopped_case cfg t ms tick).pwm1_out = t.pwm1_out ∧
    (stopped_case cfg t ms tick).starts =
      if cfg.auto_start ≠ 0 ∧ t.thr_in < cfg.thr_start then 0 else t.starts := by
  unfold stopped_case
  rw [if_pos hd]
  by_cases hreset : cfg.auto_start ≠ 0 ∧ t.thr_in < cfg.thr_start
  · have hauto2 : ¬ (cfg.auto_start ≠ 0 ∧ t.thr_in > cfg.thr_start ∧ 0 < cfg.auto_start) := by
      intro h; omega
    rw [if_pos hreset]
    dsimp only
    rw [if_neg hman, if_neg hauto2, if_pos hreset]
    exact ⟨rfl, rfl, rfl, rfl, rfl⟩
  · rw [if_neg hreset]
    dsimp only
    rw [if_neg hman, if_neg hauto, if_neg hreset]
    exact ⟨rfl, rfl, rfl, rfl, rfl⟩

/-- C12. Manual start has priority over auto-crank: a cycle that begins in
`STOPPED` with the stop dwell elapsed (the elapsed time of line 285, taken
after the slide step), `rpm > 0` and `throttle_in > 0` ends in `START` with
`engine_start_ms` set to the tick read in the switch; `pwm1_out` is unchanged
and `starts` is not incremented (it is unchanged when the raw throttle is not
below `thr_start`, as under the auto-crank guard, and 0 otherwise).  A cycle
from `STOPPED` ends in `CRANK` only when the manual-start guard is false. -/
theorem manual_start_priority (L : Int) (cfg : Config) (s : Status) (inp : Input)
    (hst : s.state = State.STOPPED) :
    (sub16 inp.ms (slide inp.ms s.engine_stop_ms) > cfg.dwell_time_ms → inp.rpm > 0 →
      0 < throttle_fraction L cfg inp.thr_in →
      (cycle L cfg s inp).state = State.START ∧
      (cycle L cfg s inp).engine_start_ms = inp.tick ∧
      (cycle L cfg s inp).pwm1_out = s.pwm1_out ∧
      ((cycle L cfg s inp).starts = s.starts ∨ (cycle L cfg s inp).starts = 0) ∧
      (¬ inp.thr_in < cfg.thr_start → (cycle L cfg s inp).starts = s.starts)) ∧
    ((cycle L cfg s inp).state = State.CRANK →
      ¬ (inp.rpm > 0 ∧ 0 < throttle_fraction L cfg inp.thr_in)) := by
  rw [cycle_stopped L cfg s inp hst]
  have hs : (front L cfg s inp).state = State.STOPPED := by simp [hst]
  constructor
  · intro hd hrpm hthr
    obtain ⟨c1, c2, -, c4, c5⟩ := stopped_case_manual cfg (front L cfg s inp) inp.ms inp.tick
      (by rw [front_engine_stop_ms]; exact hd)
      (by rw [front_rpm, front_throttle_in]; exact ⟨hrpm, hthr⟩)
    rw [front_pwm1_out] at c4
    rw [front_thr_in, front_starts] at c5
    refine ⟨c1, c2, c4, ?_, ?_⟩
    · rw [c5]; split_ifs
      · exact Or.inr rfl
      · exact Or.inl rfl
    · intro h
      rw [c5, if_neg (fun hh => h hh.2)]
  · intro hc hman
    by_cases hd : sub16 inp.ms (front L cfg s inp).engine_stop_ms > cfg.dwell_time_ms
    · have c1 := (stopped_case_manual cfg (front L cfg s inp) inp.ms inp.tick hd
        (by rw [front_rpm, front_throttle_in]; exact hman)).1
      rw [c1] at hc
      exact absurd hc (by decide)
    · rw [stopped_case_hold cfg _ inp.ms inp.tick hd, hs] at hc
      exact absurd hc (by decide)

/-- C12 with both guards true: stopped since 400, sampled at 1600 with 10 rpm,
throttle at mid travel (above `thr_start`) and no crank attempt used. -/
theorem manual_start_priority_witness :
    st_stopped_fresh.state = State.STOPPED ∧
    (cfg_demo.auto_start ≠ 0 ∧ (inp_turning 1600).thr_in > cfg_demo.thr_start ∧
      st_stopped_fresh.starts < cfg_demo.auto_start) ∧
    (cycle 2200 cfg_demo st_stopped_fresh (inp_turning 1600)).state = State.START ∧
    (cycle 2200 cfg_demo st_stopped_fresh (inp_turning 1600)).engine_start_ms = 1600 ∧
    (cycle 2200 cfg_demo st_stopped_fresh (inp_turning 1600)).pwm1_out = 1000 ∧
    (cycle 2200 cfg_demo st_stopped_fresh (inp_turning 1600)).starts = 0 := by
  have hf : 0 < throttle_fraction 2200 cfg_demo (inp_turning 1600).thr_in := by
    have e1 : clamp_pwm 2200 (to_i16 ((1500 : Nat) : Int)) 1000 2000 = 1500 := by decide
    have e2 : sub16 1500 1000 = 500 := by decide
    have e3 : sub16 2000 1000 = 1000 := by decide
    simp only [throttle_fraction, cfg_demo, inp_turning, e1, e2, e3]
    norm_num
  have h := (manual_start_priority 2200 cfg_demo st_stopped_fresh (inp_turning 1600) rfl).1
    (by decide) (by decide) hf
  exact ⟨rfl, by decide, h.1, h.2.1, h.2.2.1, h.2.2.2.2 (by decide)⟩

/-! ## The attempt counter -/

/-- Outside `case STOPPED` the switch leaves `starts` as it was or sets it
to 0, and it does not enter `CRANK` from another state. -/
theorem state_step_starts_other (cfg : Config) (t : Status) (ms rt tick : Nat)
    (hst : t.state ≠ State.STOPPED) :
    ((state_step cfg t ms rt tick).starts = t.starts ∨
      (state_step cfg t ms rt tick).starts = 0) ∧
    ((state_step cfg t ms rt tick).state = State.CRANK → t.state = State.CRANK) := by
  unfold state_step start_case running_guards engine_stop engine_crank
  split <;> (try simp only [Bool.false_eq_true, if_false, if_true]) <;>
    first
    | exact absurd ‹t.state = State.STOPPED› hst
    | (split_ifs <;> simp_all)

/-- The switch, seen from `starts`: unchanged, reset to 0, or incremented on
the way from `STOPPED` to `CRANK`. -/
theorem state_step_starts (cfg : Config) (t : Status) (ms rt tick : Nat) :
    (state_step cfg t ms rt tick).starts = t.starts ∨
    (state_step cfg t ms rt tick).starts = 0 ∨
    (t.state = State.STOPPED ∧ (state_step cfg t ms rt tick).state = State.CRANK ∧
      (state_step cfg t ms rt tick).starts = (t.starts + 1) % 65536 ∧
      t.starts < cfg.auto_start) := by
  by_cases hst : t.state = State.STOPPED
  · have e : state_step cfg t ms rt tick = stopped_case cfg t ms tick := by
      unfold state_step; rw [hst]
    rw [e]
    by_cases hd : sub16 ms t.engine_stop_ms > cfg.dwell_time_ms
    · by_cases hman : t.rpm > 0 ∧ 0 < t.throttle_in
      · have h := (stopped_case_manual cfg t ms tick hd hman).2.2.2.2
        rw [h]; split_ifs
        · exact Or.inr (Or.inl rfl)
        · exact Or.inl rfl
      · by_cases hauto : cfg.auto_start ≠ 0 ∧ t.thr_in > cfg.thr_start ∧
            t.starts < cfg.auto_start
        · obtain ⟨c1, -, -, -, c5⟩ := stopped_case_crank cfg t ms tick hd hman hauto
          exact Or.inr (Or.inr ⟨hst, c1, c5, hauto.2.2⟩)
        · have h := (stopped_case_idle cfg t ms tick hd hman hauto).2.2.2.2
          rw [h]; split_ifs
          · exact Or.inr (Or.inl rfl)
          · exact Or.inl rfl
    · rw [stopped_case_hold cfg t ms tick hd]
      exact Or.inl rfl
  · rcases (state_step_starts_other cfg t ms rt tick hst).1 with h | h
    · exact Or.inl h
    · exact Or.inr (Or.inl h)

/-- A step of the switch from `STOPPED` into `CRANK` took the auto-crank
branch. -/
theorem state_step_to_crank (cfg : Config) (t : Status) (ms rt tick : Nat)
    (hst : t.state = State.STOPPED)
    (hc : (state_step cfg t ms rt tick).state = State.CRANK) :
    cfg.auto_start ≠ 0 ∧ t.starts < cfg.auto_start ∧
    (state_step cfg t ms rt tick).starts = (t.starts + 1) % 65536 ∧
    (state_step cfg t ms rt tick).pwm1_out = cfg.pwm1_max := by
  have e : state_step cfg t ms rt tick = stopped_case cfg t ms tick := by
    unfold state_step; rw [hst]
  rw [e] at hc ⊢
  by_cases hd : sub16 ms t.engine_stop_ms > cfg.dwell_time_ms
  · by_cases hman : t.rpm > 0 ∧ 0 < t.throttle_in
    · rw [(stopped_case_manual cfg t ms tick hd hman).1] at hc
      exact absurd hc (by decide)
    · by_cases hauto : cfg.auto_start ≠ 0 ∧ t.thr_in > cfg.thr_start ∧
          t.starts < cfg.auto_start
      · obtain ⟨-, -, -, c4, c5⟩ := stopped_case_crank cfg t ms tick hd hman hauto
        exact ⟨hauto.1, hauto.2.2, c5, c4⟩
      · rw [(stopped_case_idle cfg t ms tick hd hman hauto).1, hst] at hc
        exact absurd hc (by decide)
  · rw [stopped_case_hold cfg t ms tick hd, hst] at hc
    exact absurd hc (by decide)

theorem cycle_starts_le (L : Int) (cfg : Config) (s : Status) (inp : Input)
    (h : s.starts ≤ cfg.auto_start) : (cycle L cfg s inp).starts ≤ cfg.auto_start := by
  rw [cycle_eq_front]
  rcases state_step_starts cfg (front L cfg s inp) inp.ms (cycle_run_time s inp.ms) inp.tick
    with c | c | ⟨-, -, c, hlt⟩
  · rw [c, front_starts]; exact h
  · rw [c]; exact Nat.zero_le _
  · rw [c]; rw [front_starts] at hlt ⊢
    have := Nat.mod_le (s.starts + 1) 65536
    omega

theorem run_starts_le (L : Int) (cfg : Config) (inps : List Input) :
    ∀ s : Status, s.starts ≤ cfg.auto_start → (run L cfg s inps).starts ≤ cfg.auto_start := by
  induction inps with
  | nil => intro s h; exact h
  | cons i rest ih =>
    intro s h
    exact ih (cycle L cfg s i) (cycle_starts_le L cfg s i h)

/-- C13. Crank-attempt bound: `starts <= auto_start` holds after
`default_state()` (where `starts == 0`), is kept by every control cycle and so
holds in every status reached from the entry to the loop; `starts` grows only
on a cycle that goes from `STOPPED` to `CRANK`, and on such a cycle by exactly
1; with `auto_start == 0` no cycle goes from `STOPPED` to `CRANK`. -/
theorem starts_bounded (L : Int) (cfg : Config) (hwf : cfg.wf) :
    (default_state cfg).starts = 0 ∧
    (∀ (s : Status) (inp : Input), s.starts ≤ cfg.auto_start →
      (cycle L cfg s inp).starts ≤ cfg.auto_start) ∧
    (∀ (ms0 : Nat) (inps : List Input),
      (run L cfg (boot cfg ms0) inps).starts ≤ cfg.auto_start) ∧
    (∀ (s : Status) (inp : Input), (cycle L cfg s inp).starts > s.starts →
      s.state = State.STOPPED ∧ (cycle L cfg s inp).state = State.CRANK ∧
      (cycle L cfg s inp).starts = s.starts + 1) ∧
    (∀ (s : Status) (inp : Input), s.state = State.STOPPED →
      (cycle L cfg s inp).state = State.CRANK → (cycle L cfg s inp).starts = s.starts + 1) ∧
    (cfg.auto_start = 0 → ∀ (s : Status) (inp : Input), s.state = State.STOPPED →
      (cycle L cfg s inp).state ≠ State.CRANK) := by
  have ha : cfg.auto_start < 65536 := hwf.2.2.2.2.2.2.2.2.2.2
  refine ⟨rfl, ?_, ?_, ?_, ?_, ?_⟩
  · intro s inp h
    exact cycle_starts_le L cfg s inp h
  · intro ms0 inps
    exact run_starts_le L cfg inps (boot cfg ms0) (Nat.zero_le _)
  · intro s inp hgt
    rw [cycle_eq_front] at hgt ⊢
    rcases state_step_starts cfg (front L cfg s inp) inp.ms (cycle_run_time s inp.ms) inp.tick
      with c | c | ⟨c1, c2, c3, hlt⟩
    · rw [c, front_starts] at hgt; omega
    · rw [c] at hgt; omega
    · rw [front_state] at c1
      rw [front_starts] at c3 hlt
      refine ⟨c1, c2, ?_⟩
      rw [c3]; omega
  · intro s inp hst hc
    rw [cycle_eq_front] at hc ⊢
    obtain ⟨-, hlt, c3, -⟩ := state_step_to_crank cfg (front L cfg s inp) inp.ms
      (cycle_run_time s inp.ms) inp.tick (by rw [front_state]; exact hst) hc
    rw [front_starts] at c3 hlt
    rw [c3]; omega
  · intro h0 s inp hst hc
    rw [cycle_eq_front] at hc
    have := (state_step_to_crank cfg (front L cfg s inp) inp.ms
      (cycle_run_time s inp.ms) inp.tick (by rw [front_state]; exact hst) hc).1
    exact this h0

/-- C13 on the scenario of three failed crank attempts with `auto_start == 3`:
the counter ends at the bound, and the cycle at tick 1600 that goes from
`STOPPED` to `CRANK` raises it from 0 to 1. -/
theorem starts_bounded_witness :
    cfg_demo.wf ∧
    (run 2200 cfg_demo (boot cfg_demo 0) inps_three_failed).starts ≤ cfg_demo.auto_start ∧
    (run 2200 cfg_demo (boot cfg_demo 0) [inp_idle 10, inp_idle 1020]).state = State.STOPPED ∧
    (cycle 2200 cfg_demo (run 2200 cfg_demo (boot cfg_demo 0) [inp_idle 10, inp_idle 1020])
      (inp_idle 1600)).state = State.CRANK ∧
    (cycle 2200 cfg_demo (run 2200 cfg_demo (boot cfg_demo 0) [inp_idle 10, inp_idle 1020])
      (inp_idle 1600)).starts =
      (run 2200 cfg_demo (boot cfg_demo 0) [inp_idle 10, inp_idle 1020]).starts + 1 := by
  have h := starts_bounded 2200 cfg_demo (by decide)
  have h1 : (run 2200 cfg_demo (boot cfg_demo 0) [inp_idle 10, inp_idle 1020]).state =
      State.STOPPED := by decide
  have h2 : (cycle 2200 cfg_demo (run 2200 cfg_demo (boot cfg_demo 0)
      [inp_idle 10, inp_idle 1020]) (inp_idle 1600)).state = State.CRANK := by decide
  exact ⟨by decide, h.2.2.1 0 inps_three_failed, h1, h2, h.2.2.2.2.1 _ _ h1 h2⟩

/-- C14. Crank timeout: a cycle that begins in `CRANK` with `run_time_ms >
start_time_ms` ends in `STOPPED` with `pwm1_out == pwm1_min` and
`engine_stop_ms` set to the tick read by `engine_stop`, whatever the rpm is;
with `run_time_ms <= start_time_ms` it ends in `START` if `rpm > 0` and stays
in `CRANK` if `rpm == 0`, `pwm1_out` unchanged in both cases. -/
theorem crank_timeout (L : Int) (cfg : Config) (s : Status) (inp : Input)
    (hst : s.state = State.CRANK) :
    (cycle_run_time s inp.ms > cfg.start_time_ms →
      (cycle L cfg s inp).state = State.STOPPED ∧
      (cycle L cfg s inp).pwm1_out = cfg.pwm1_min ∧
      (cycle L cfg s inp).engine_stop_ms = inp.tick) ∧
    (cycle_run_time s inp.ms ≤ cfg.start_time_ms → inp.rpm > 0 →
      (cycle L cfg s inp).state = State.START ∧
      (cycle L cfg s inp).pwm1_out = s.pwm1_out) ∧
    (cycle_run_time s inp.ms ≤ cfg.start_time_ms → inp.rpm = 0 →
      (cycle L cfg s inp).state = State.CRANK ∧
      (cycle L cfg s inp).pwm1_out = s.pwm1_out) := by
  have hs : (front L cfg s inp).state = State.CRANK := by simp [hst]
  have e : cycle L cfg s inp =
      if cycle_run_time s inp.ms > cfg.start_time_ms then
        { engine_stop cfg (front L cfg s inp) inp.tick with state := State.STOPPED }
      else if (front L cfg s inp).rpm > 0 then
        { front L cfg s inp with ignition := true, state := State.START }
      else front L cfg s inp := by
    rw [cycle_eq_front]
    unfold state_step
    rw [hs]
  rw [e]
  refine ⟨?_, ?_, ?_⟩
  · intro h
    rw [if_pos h, engine_stop_eq]
    exact ⟨rfl, rfl, rfl⟩
  · intro h hr
    rw [if_neg (by omega), if_pos (by rw [front_rpm]; exact hr)]
    exact ⟨rfl, by simp⟩
  · intro h hr
    rw [if_neg (by omega), if_neg (by rw [front_rpm]; omega)]
    exact ⟨hs, by simp⟩

/-- C14 with rotation present at the timeout: cranking since tick 1000,
10 rpm sampled at tick 2600 (run time 1600 against a crank time of 1500). -/
theorem crank_timeout_witness :
    st_cranking.state = State.CRANK ∧ (inp_turning 2600).rpm > 0 ∧
    cycle_run_time st_cranking (inp_turning 2600).ms > cfg_demo.start_time_ms ∧
    (cycle 2200 cfg_demo st_cranking (inp_turning 2600)).state = State.STOPPED ∧
    (cycle 2200 cfg_demo st_cranking (inp_turning 2600)).pwm1_out = 1000 ∧
    (cycle 2200 cfg_demo st_cranking (inp_turning 2600)).engine_stop_ms = 2600 :=
  ⟨rfl, by decide, by decide,
    (crank_timeout 2200 cfg_demo st_cranking (inp_turning 2600) rfl).1 (by decide)⟩

/-! ## The throttle blend against its specification -/

/-- C15 as stated fails in two places.  With a dwell of 40000 ms the product
`2*config.dwell_time_ms` wraps to 14464, so in `RUNNING` at a run time of
50000 `throttle` returns `throttle_in` (1/2) where the piecewise definition
blends to 11/40.  With `thr_start` 900 below `thr_min` 1000 the difference
`thr_start - thr_min` wraps to 65436, so in `CRANK` `throttle` returns
16359/250 where the piecewise definition gives -1/10. -/
theorem throttle_not_piecewise :
    (cfg_long_dwell.wf ∧ cfg_long_dwell.thr_min < cfg_long_dwell.thr_max ∧
      0 < cfg_long_dwell.dwell_time_ms ∧ st_running.state = State.RUNNING ∧
      throttle cfg_long_dwell st_running 50000 = 1 / 2 ∧
      throttle_spec cfg_long_dwell st_running 50000 = 11 / 40) ∧
    (cfg_start_low.wf ∧ cfg_start_low.thr_min < cfg_start_low.thr_max ∧
      0 < cfg_start_low.dwell_time_ms ∧ st_cranking.state = State.CRANK ∧
      throttle cfg_start_low st_cranking 100 = 16359 / 250 ∧
      throttle_spec cfg_start_low st_cranking 100 = -1 / 10) := by
  refine ⟨⟨by decide, by decide, by decide, rfl, ?_, ?_⟩,
    ⟨by decide, by decide, by decide, rfl, ?_, ?_⟩⟩
  · simp [throttle, cfg_long_dwell, cfg_demo, st_running]
  · simp [throttle_spec, cfg_long_dwell, cfg_demo, st_running]
    norm_num
  · have e1 : sub16 900 1000 = 65436 := by decide
    have e2 : sub16 2000 1000 = 1000 := by decide
    simp [throttle, throttle_start, cfg_start_low, cfg_demo, st_cranking, e1, e2]
    norm_num
  · simp [throttle_spec, cfg_start_low, cfg_demo, st_cranking]
    norm_num

/-- C15, amended: for every configuration with `thr_min < thr_max` and
`thr_min <= thr_start`, every lifecycle state, every `throttle_in` and every
16-bit `run_time_ms`, provided `dwell_time_ms` or `run_time_ms` is below 32768
(the loop only passes run times up to 32767), `throttle(run_time_ms)` equals
the piecewise definition; and in `RUNNING` at `run_time_ms == 2 *
dwell_time_ms` it returns `throttle_in`. -/
theorem throttle_eq_spec (cfg : Config) (s : Status) (rt : Nat)
    (hwf : cfg.wf) (hthr : cfg.thr_min < cfg.thr_max) (hstart : cfg.thr_min ≤ cfg.thr_start)
    (hrt : rt < 65536) (hwin : cfg.dwell_time_ms < 32768 ∨ rt < 32768) :
    throttle cfg s rt = throttle_spec cfg s rt ∧
    (s.state = State.RUNNING → rt = 2 * cfg.dwell_time_ms → throttle cfg s rt = s.throttle_in) := by
  obtain ⟨-, -, -, -, h4, h5, h6, h7, -⟩ := hwf
  have ets : throttle_start cfg = ((cfg.thr_start : ℚ) - (cfg.thr_min : ℚ)) /
      ((cfg.thr_max : ℚ) - (cfg.thr_min : ℚ)) := by
    have e1 : sub16 cfg.thr_start cfg.thr_min = cfg.thr_start - cfg.thr_min := by
      unfold sub16; omega
    have e2 : sub16 cfg.thr_max cfg.thr_min = cfg.thr_max - cfg.thr_min := by
      unfold sub16; omega
    unfold throttle_start
    rw [e1, e2, Nat.cast_sub hstart, Nat.cast_sub hthr.le]
  constructor
  · unfold throttle throttle_spec
    simp only []
    rw [ets]
    by_cases c1 : s.state = State.CRANK ∨ s.state = State.START
    · rw [if_pos c1, if_pos c1]
    · rw [if_neg c1, if_neg c1]
      by_cases c2 : s.state = State.RUNNING ∧ rt > cfg.dwell_time_ms ∧
          rt < (2 * cfg.dwell_time_ms) % 65536
      · have c3 : s.state = State.RUNNING ∧ cfg.dwell_time_ms < rt ∧
            rt < 2 * cfg.dwell_time_ms := by
          refine ⟨c2.1, c2.2.1, ?_⟩
          have := c2.2.2
          omega
        have ew : blend_weight cfg rt =
            ((rt : ℚ) - (cfg.dwell_time_ms : ℚ)) / (cfg.dwell_time_ms : ℚ) := by
          have e1 : sub16 rt cfg.dwell_time_ms = rt - cfg.dwell_time_ms := by
            unfold sub16; omega
          unfold blend_weight
          rw [e1, Nat.cast_sub c2.2.1.le]
        rw [if_pos c2, if_pos c3, ew]
      · have c3 : ¬ (s.state = State.RUNNING ∧ cfg.dwell_time_ms < rt ∧
            rt < 2 * cfg.dwell_time_ms) := by
          intro h
          apply c2
          refine ⟨h.1, h.2.1, ?_⟩
          have := h.2.1
          have := h.2.2
          omega
        rw [if_neg c2, if_neg c3]
  · intro hst h2
    unfold throttle
    have c1 : ¬ (s.state = State.CRANK ∨ s.state = State.START) := by
      rw [hst]; decide
    have c2 : ¬ (s.state = State.RUNNING ∧ rt > cfg.dwell_time_ms ∧
        rt < (2 * cfg.dwell_time_ms) % 65536) := by
      intro h
      have := h.2.2
      have := Nat.mod_le (2 * cfg.dwell_time_ms) 65536
      omega
    rw [if_neg c1, if_neg c2]

/-- C15, amended, in the middle of the blend window: dwell 500, run time 750,
cranking fraction 1/5, live fraction 1/2, result 7/20. -/
theorem throttle_eq_spec_witness :
    cfg_demo.wf ∧ cfg_demo.thr_min < cfg_demo.thr_max ∧ cfg_demo.thr_min ≤ cfg_demo.thr_start ∧
    (750 : Nat) < 65536 ∧ (cfg_demo.dwell_time_ms < 32768 ∨ (750 : Nat) < 32768) ∧
    throttle cfg_demo st_running 750 = throttle_spec cfg_demo st_running 750 ∧
    throttle_spec cfg_demo st_running 750 = 7 / 20 := by
  refine ⟨by decide, by decide, by decide, by decide, by decide,
    (throttle_eq_spec cfg_demo st_running 750 (by decide) (by decide) (by decide) (by decide)
      (by decide)).1, ?_⟩
  simp [throttle_spec, cfg_demo, st_running]
  norm_num

/-! ## The clamp against its specification -/

/-- Where the value left after the sentinel test is not negative, `clamp_pwm`
is the saturating clamp of the specification. -/
theorem clamp_pwm_eq_spec_of_nonneg (L v : Int) (low high : Nat)
    (hv : 0 ≤ (if v > L then 0 else v)) (hmax : v ≤ 32767)
    (hhigh : high < 65536) (hle : low ≤ high) :
    (clamp_pwm L v low high : Int) = clamp_spec L v low high := by
  rw [clamp_pwm_eq L v low high (by omega) hhigh]
  unfold clamp_spec
  simp only []
  have hw : (if v > L then (0 : Int) else v) ≤ 32767 := by split_ifs <;> omega
  generalize (if v > L then (0 : Int) else v) = w at hv hw
  have e : ((to_u16 w : Nat) : Int) = w := by unfold to_u16; omega
  have hu : to_u16 w = w.toNat := by unfold to_u16; omega
  rw [hu]
  split_ifs with c1 c2
  · rw [min_eq_right]
    rw [le_max_iff]; left; omega
  · rw [max_eq_right (by omega), min_eq_left (by omega)]
  · rw [max_eq_left (by omega), min_eq_left (by omega)]
    omega

/-- The slide step never makes a timestamp look older. -/
theorem slide_age_le (ms t : Nat) : sub16 ms (slide ms t) ≤ sub16 ms t := by
  unfold slide INT16_MAX
  split_ifs with h
  · unfold sub16 at h ⊢; omega
  · exact le_refl _

/-- C17. Restart interlock: in a cycle that begins in `STOPPED` with
`(ms - engine_stop_ms) mod 2^16 <= dwell_time_ms` (before or after the slide
step), whatever was sampled, the state switch changes nothing: the state is
still `STOPPED`, and `starts`, `pwm1_out` and both timestamps are what the
slide step left. -/
theorem restart_interlock (L : Int) (cfg : Config) (s : Status) (inp : Input)
    (hst : s.state = State.STOPPED)
    (hd : sub16 inp.ms s.engine_stop_ms ≤ cfg.dwell_time_ms ∨
      sub16 inp.ms (slide inp.ms s.engine_stop_ms) ≤ cfg.dwell_time_ms) :
    state_step cfg (front L cfg s inp) inp.ms (cycle_run_time s inp.ms) inp.tick =
      front L cfg s inp ∧
    (cycle L cfg s inp).state = State.STOPPED ∧
    (cycle L cfg s inp).starts = s.starts ∧
    (cycle L cfg s inp).pwm1_out = s.pwm1_out ∧
    (cycle L cfg s inp).engine_start_ms = (slide_step s inp.ms).engine_start_ms ∧
    (cycle L cfg s inp).engine_stop_ms = (slide_step s inp.ms).engine_stop_ms := by
  have hd2 : ¬ sub16 inp.ms (front L cfg s inp).engine_stop_ms > cfg.dwell_time_ms := by
    rw [front_engine_stop_ms]
    have := slide_age_le inp.ms s.engine_stop_ms
    omega
  have hs : (front L cfg s inp).state = State.STOPPED := by simp [hst]
  have e : state_step cfg (front L cfg s inp) inp.ms (cycle_run_time s inp.ms) inp.tick =
      front L cfg s inp := by
    unfold state_step
    rw [hs]
    exact stopped_case_hold cfg _ inp.ms inp.tick hd2
  rw [cycle_eq_front, e]
  exact ⟨rfl, hs, front_starts L cfg s inp, front_pwm1_out L cfg s inp,
    front_engine_start_ms L cfg s inp, front_engine_stop_ms L cfg s inp⟩

/-- C17 with everything else in favour of a start: stopped since tick 400,
sampled at tick 800 (400 ms against a dwell of 500) with 10 rpm and the
throttle above `thr_start`. -/
theorem restart_interlock_witness :
    st_stopped_fresh.state = State.STOPPED ∧
    sub16 (inp_turning 800).ms st_stopped_fresh.engine_stop_ms ≤ cfg_demo.dwell_time_ms ∧
    (cycle 2200 cfg_demo st_stopped_fresh (inp_turning 800)).state = State.STOPPED ∧
    (cycle 2200 cfg_demo st_stopped_fresh (inp_turning 800)).starts = 0 ∧
    (cycle 2200 cfg_demo st_stopped_fresh (inp_turning 800)).pwm1_out = 1000 ∧
    (cycle 2200 cfg_demo st_stopped_fresh (inp_turning 800)).engine_start_ms = 100 ∧
    (cycle 2200 cfg_demo st_stopped_fresh (inp_turning 800)).engine_stop_ms = 400 :=
  ⟨rfl, by decide,
    (restart_interlock 2200 cfg_demo st_stopped_fresh (inp_turning 800) rfl
      (Or.inl (by decide))).2⟩

/-! ## Saturation of the measured age -/

/-- One slide step, from an age that already is the saturated true age: the
age seen after the step is the saturated true age at the new time. -/
theorem slide_age_step (T0 Tp T t : Nat) (ht : t < 65536) (h0 : T0 ≤ Tp) (h1 : Tp ≤ T)
    (h2 : T - Tp < 32768) (hinv : sub16 (Tp % 65536) t = min (Tp - T0) 32767) :
    sub16 (T % 65536) (slide (T % 65536) t) = min (T - T0) 32767 ∧
    slide (T % 65536) t < 65536 := by
  unfold slide INT16_MAX
  unfold sub16 at hinv ⊢
  rw [Nat.min_def] at hinv ⊢
  split_ifs at hinv ⊢ <;> omega

/-- The age seen after the slide step of the last of a list of timed cycles,
for a timestamp the switch did not rewrite in the cycles before it. -/
theorem age_after_run (L : Int) (cfg : Config) (f : Status → Nat)
    (hf : ∀ (s : Status) (ms : Nat), f (slide_step s ms) = slide ms (f s))
    (T0 T : Nat) (i : Input) :
    ∀ (steps : List (Nat × Input)) (s : Status) (Tp : Nat), T0 ≤ Tp → f s < 65536 →
      sub16 (Tp % 65536) (f s) = min (Tp - T0) 32767 →
      timed Tp (steps ++ [(T, i)]) → kept L cfg f s steps →
      sub16 i.ms (f (slide_step (run L cfg s (inputs_of steps)) i.ms)) = min (T - T0) 32767 := by
  intro steps
  induction steps with
  | nil =>
    intro s Tp h0 ht hinv htimed _
    obtain ⟨h1, h2, h3, -⟩ := htimed
    show sub16 i.ms (f (slide_step s i.ms)) = min (T - T0) 32767
    rw [hf, h3]
    exact (slide_age_step T0 Tp T (f s) ht h0 h1 h2 hinv).1
  | cons p rest ih =>
    intro s Tp h0 ht hinv htimed hkept
    obtain ⟨h1, h2, h3, hrest⟩ := htimed
    obtain ⟨hk, hkrest⟩ := hkept
    have hstep := slide_age_step T0 Tp p.1 (f s) ht h0 h1 h2 hinv
    have hval : f (cycle L cfg s p.2) = slide (p.1 % 65536) (f s) := by
      rw [hk, hf, h3]
    exact ih (cycle L cfg s p.2) p.1 (le_trans h0 h1) (by rw [hval]; exact hstep.2)
      (by rw [hval]; exact hstep.1) hrest hkrest

theorem timed_last_ge (T : Nat) (i : Input) :
    ∀ (steps : List (Nat × Input)) (Tp : Nat), timed Tp (steps ++ [(T, i)]) → Tp ≤ T := by
  intro steps
  induction steps with
  | nil => intro Tp h; exact h.1
  | cons p rest ih => intro Tp h; exact le_trans h.1 (ih p.1 h.2.2.2)

theorem timed_last_two (T T' : Nat) (i i' : Input) :
    ∀ (steps : List (Nat × Input)) (Tp : Nat),
      timed Tp (steps ++ [(T, i)] ++ [(T', i')]) → T ≤ T' := by
  intro steps
  induction steps with
  | nil => intro Tp h; exact h.2.2.2.1
  | cons p rest ih => intro Tp h; exact ih p.1 h.2.2.2

/-- C18. Sliding makes the measured age saturate: take cycles whose true tick
times are non-decreasing with consecutive gaps below 32768 ms, and a timestamp
(`engine_stop_ms` or `engine_start_ms`) written at true time `T0` that the
state switch does not rewrite afterwards.  The age `(ms - timestamp) mod 2^16`
seen after the slide step of the cycle at true time `T` is `min(T - T0,
32767)`; it does not decrease from one cycle to the next; and for
`engine_start_ms` in `RUNNING`, `START` or `CRANK` it is the `run_time_ms` of
that cycle. -/
theorem slide_saturates (L : Int) (cfg : Config) (f : Status → Nat)
    (hf : f = Status.engine_stop_ms ∨ f = Status.engine_start_ms)
    (s : Status) (T0 : Nat) (steps : List (Nat × Input)) (T : Nat) (i : Input)
    (hs : f s = T0 % 65536) (htimed : timed T0 (steps ++ [(T, i)]))
    (hkept : kept L cfg f s steps) :
    sub16 i.ms (f (slide_step (run L cfg s (inputs_of steps)) i.ms)) = min (T - T0) 32767 ∧
    (∀ (T' : Nat) (i' : Input), timed T0 (steps ++ [(T, i)] ++ [(T', i')]) →
      kept L cfg f s (steps ++ [(T, i)]) →
      sub16 i.ms (f (slide_step (run L cfg s (inputs_of steps)) i.ms)) ≤
        sub16 i'.ms (f (slide_step (run L cfg s (inputs_of (steps ++ [(T, i)]))) i'.ms))) ∧
    (f = Status.engine_start_ms →
      ((run L cfg s (inputs_of steps)).state = State.RUNNING ∨
        (run L cfg s (inputs_of steps)).state = State.START ∨
        (run L cfg s (inputs_of steps)).state = State.CRANK) →
      cycle_run_time (run L cfg s (inputs_of steps)) i.ms = min (T - T0) 32767) := by
  have hslide : ∀ (s : Status) (ms : Nat), f (slide_step s ms) = slide ms (f s) := by
    intro s ms
    rcases hf with h | h <;> rw [h] <;> rfl
  have hinit : sub16 (T0 % 65536) (f s) = min (T0 - T0) 32767 := by
    rw [hs]; unfold sub16; simp
  have hlt : f s < 65536 := by rw [hs]; omega
  have hage := age_after_run L cfg f hslide T0 T i steps s T0 (le_refl _) hlt hinit htimed hkept
  refine ⟨hage, ?_, ?_⟩
  · intro T' i' htimed' hkept'
    have hage' := age_after_run L cfg f hslide T0 T' i' (steps ++ [(T, i)]) s T0 (le_refl _)
      hlt hinit htimed' hkept'
    have hle := timed_last_two T T' i i' steps T0 htimed'
    rw [hage, hage', Nat.min_def, Nat.min_def]
    split_ifs <;> omega
  · intro hstart hstate
    rw [hstart] at hage
    unfold cycle_run_time run_time_ms
    rw [if_pos (by simpa [slide_step] using hstate)]
    exact hage

/-- C18 across a wrap of the counter: the stop time was written at tick 1000
and the machine is held in `STOPPED`; after cycles at 30000 and 60000 the
cycle at true time 70000 reads `ms = 4464` and sees an age of 32767. -/
theorem slide_saturates_witness :
    st_exhausted.engine_stop_ms = 1000 % 65536 ∧
    timed 1000 ([(30000, inp_idle 30000), (60000, inp_idle 60000)] ++
      [(70000, inp_idle 4464)]) ∧
    kept 2200 cfg_demo Status.engine_stop_ms st_exhausted
      [(30000, inp_idle 30000), (60000, inp_idle 60000)] ∧
    sub16 (inp_idle 4464).ms (Status.engine_stop_ms (slide_step
      (run 2200 cfg_demo st_exhausted
        (inputs_of [(30000, inp_idle 30000), (60000, inp_idle 60000)]))
      (inp_idle 4464).ms)) = min (70000 - 1000) 32767 := by
  have h1 : timed 1000 ([(30000, inp_idle 30000), (60000, inp_idle 60000)] ++
      [(70000, inp_idle 4464)]) := by
    simp only [timed, List.cons_append, List.nil_append, inp_idle]
    decide
  have h2 : kept 2200 cfg_demo Status.engine_stop_ms st_exhausted
      [(30000, inp_idle 30000), (60000, inp_idle 60000)] := by
    simp only [kept]
    decide
  exact ⟨rfl, h1, h2,
    (slide_saturates 2200 cfg_demo Status.engine_stop_ms (Or.inl rfl) st_exhausted 1000
      [(30000, inp_idle 30000), (60000, inp_idle 60000)] 70000 (inp_idle 4464) rfl h1 h2).1⟩

/-! ## The crank channel outside and after a start attempt -/

/-- An invariant of the cycle holds after any number of cycles. -/
theorem run_invariant (L : Int) (cfg : Config) (P : Status → Prop)
    (hstep : ∀ (s : Status) (inp : Input), P s → P (cycle L cfg s inp))
    (inps : List Input) : ∀ s : Status, P s → P (run L cfg s inps) := by
  induction inps with
  | nil => intro s h; exact h
  | cons i rest ih => intro s h; exact ih (cycle L cfg s i) (hstep s i h)

/-- The switch keeps `crank_off`. -/
theorem state_step_crank_off (cfg : Config) (t : Status) (ms rt tick : Nat)
    (h : crank_off cfg t) : crank_off cfg (state_step cfg t ms rt tick) := by
  unfold crank_off at h ⊢
  by_cases hst : t.state = State.STOPPED
  · have e : state_step cfg t ms rt tick = stopped_case cfg t ms tick := by
      unfold state_step; rw [hst]
    rw [e]
    have hp := h (Or.inr (Or.inr hst))
    intro hs
    by_cases hd : sub16 ms t.engine_stop_ms > cfg.dwell_time_ms
    · by_cases hman : t.rpm > 0 ∧ 0 < t.throttle_in
      · rw [(stopped_case_manual cfg t ms tick hd hman).2.2.2.1]; exact hp
      · by_cases hauto : cfg.auto_start ≠ 0 ∧ t.thr_in > cfg.thr_start ∧
            t.starts < cfg.auto_start
        · rw [(stopped_case_crank cfg t ms tick hd hman hauto).1] at hs
          simp at hs
        · rw [(stopped_case_idle cfg t ms tick hd hman hauto).2.2.2.1]; exact hp
    · rw [stopped_case_hold cfg t ms tick hd]; exact hp
  · revert h
    unfold state_step start_case running_guards engine_stop engine_crank
    split <;> (try simp only [Bool.false_eq_true, if_false, if_true]) <;>
      first
      | exact absurd ‹t.state = State.STOPPED› hst
      | (split_ifs <;> simp_all)

/-- A step of the switch that enters `STOPPED` went through `engine_stop`. -/
theorem state_step_into_stopped (cfg : Config) (t : Status) (ms rt tick : Nat)
    (hst : t.state ≠ State.STOPPED)
    (hs : (state_step cfg t ms rt tick).state = State.STOPPED) :
    (state_step cfg t ms rt tick).pwm1_out = cfg.pwm1_min ∧
    (state_step cfg t ms rt tick).engine_stop_ms = tick := by
  revert hs
  unfold state_step start_case running_guards engine_stop engine_crank
  split <;> (try simp only [Bool.false_eq_true, if_false, if_true]) <;>
    first
    | exact absurd ‹t.state = State.STOPPED› hst
    | (split_ifs <;> simp_all)

theorem cycle_crank_off (L : Int) (cfg : Config) (s : Status) (inp : Input)
    (h : crank_off cfg s) : crank_off cfg (cycle L cfg s inp) := by
  rw [cycle_eq_front]
  apply state_step_crank_off
  unfold crank_off at h ⊢
  rw [front_state, front_pwm1_out]
  exact h

/-- C19. Crank drive is off outside a start attempt: after `default_state()`,
on entry to the loop and after every sequence of control cycles, a status in
`INIT`, `PRIME` or `STOPPED` has `pwm1_out == pwm1_min`; and every cycle that
enters `STOPPED` from another state leaves `pwm1_out` at `pwm1_min` and
`engine_stop_ms` at the tick read by `engine_stop`. -/
theorem crank_off_invariant (L : Int) (cfg : Config) (inps : List Input) :
    crank_off cfg (run L cfg (default_state cfg) inps) ∧
    (∀ ms0 : Nat, crank_off cfg (run L cfg (boot cfg ms0) inps)) ∧
    (∀ (s : Status) (inp : Input), s.state ≠ State.STOPPED →
      (cycle L cfg s inp).state = State.STOPPED →
      (cycle L cfg s inp).pwm1_out = cfg.pwm1_min ∧
      (cycle L cfg s inp).engine_stop_ms = inp.tick) := by
  refine ⟨?_, ?_, ?_⟩
  · exact run_invariant L cfg (crank_off cfg) (cycle_crank_off L cfg) inps _ (fun _ => rfl)
  · intro ms0
    exact run_invariant L cfg (crank_off cfg) (cycle_crank_off L cfg) inps _ (fun _ => rfl)
  · intro s inp hst hs
    rw [cycle_eq_front] at hs ⊢
    exact state_step_into_stopped cfg _ _ _ _ (by rw [front_state]; exact hst) hs

/-- The switch keeps `starter_state` when the dwell is at least the crank
time. -/
theorem state_step_starter_state (cfg : Config) (t : Status) (ms rt tick : Nat)
    (hcfg : cfg.dwell_time_ms ≥ cfg.start_time_ms)
    (h : starter_state cfg t) : starter_state cfg (state_step cfg t ms rt tick) := by
  unfold starter_state at h ⊢
  by_cases hst : t.state = State.STOPPED
  · have e : state_step cfg t ms rt tick = stopped_case cfg t ms tick := by
      unfold state_step; rw [hst]
    rw [e]
    have hp : t.pwm1_out = cfg.pwm1_min := by
      rcases h with h | ⟨-, -, h | h⟩
      · exact h
      · rw [hst] at h; exact absurd h (by decide)
      · rw [hst] at h; exact absurd h (by decide)
    by_cases hd : sub16 ms t.engine_stop_ms > cfg.dwell_time_ms
    · by_cases hman : t.rpm > 0 ∧ 0 < t.throttle_in
      · left; rw [(stopped_case_manual cfg t ms tick hd hman).2.2.2.1]; exact hp
      · by_cases hauto : cfg.auto_start ≠ 0 ∧ t.thr_in > cfg.thr_start ∧
            t.starts < cfg.auto_start
        · obtain ⟨c1, -, -, c4, -⟩ := stopped_case_crank cfg t ms tick hd hman hauto
          right; exact ⟨c4, hauto.1, Or.inl c1⟩
        · left; rw [(stopped_case_idle cfg t ms tick hd hman hauto).2.2.2.1]; exact hp
    · rw [stopped_case_hold cfg t ms tick hd]; left; exact hp
  · revert h
    unfold state_step start_case running_guards engine_stop engine_crank
    split <;> (try simp only [Bool.false_eq_true, if_false, if_true]) <;>
      first
      | exact absurd ‹t.state = State.STOPPED› hst
      | (split_ifs <;> simp_all <;> omega)

theorem cycle_starter_state (L : Int) (cfg : Config)
    (hcfg : cfg.dwell_time_ms ≥ cfg.start_time_ms) (s : Status) (inp : Input)
    (h : starter_state cfg s) : starter_state cfg (cycle L cfg s inp) := by
  rw [cycle_eq_front]
  apply state_step_starter_state cfg _ _ _ _ hcfg
  unfold starter_state at h ⊢
  rw [front_state, front_pwm1_out]
  exact h

/-- C20. Starter released before `RUNNING`: in a configuration with
`dwell_time_ms >= start_time_ms`, every status reached from `default_state()`
or from the entry to the loop by control cycles that is in `RUNNING` has
`pwm1_out == pwm1_min`. -/
theorem starter_released_in_running (L : Int) (cfg : Config)
    (hcfg : cfg.dwell_time_ms ≥ cfg.start_time_ms) (inps : List Input) :
    ((run L cfg (default_state cfg) inps).state = State.RUNNING →
      (run L cfg (default_state cfg) inps).pwm1_out = cfg.pwm1_min) ∧
    (∀ ms0 : Nat, (run L cfg (boot cfg ms0) inps).state = State.RUNNING →
      (run L cfg (boot cfg ms0) inps).pwm1_out = cfg.pwm1_min) := by
  have key : ∀ s : Status, starter_state cfg s → s.state = State.RUNNING →
      s.pwm1_out = cfg.pwm1_min := by
    intro s h hs
    rcases h with h | ⟨-, -, h | h⟩
    · exact h
    · rw [hs] at h; exact absurd h (by decide)
    · rw [hs] at h; exact absurd h (by decide)
  have hrun : ∀ s : Status, starter_state cfg s → starter_state cfg (run L cfg s inps) :=
    run_invariant L cfg (starter_state cfg) (cycle_starter_state L cfg hcfg) inps
  refine ⟨?_, ?_⟩
  · exact key _ (hrun _ (Or.inl rfl))
  · intro ms0
    exact key _ (hrun _ (Or.inl rfl))

/-- A cycle that begins in `START` and passes the shared guards is the body of
`case START`. -/
theorem cycle_start_pass (L : Int) (cfg : Config) (s : Status) (inp : Input)
    (hst : s.state = State.START) (hrpm : inp.rpm > 0) (hlim : inp.rpm ≤ cfg.rpm_limit)
    (hthr : 0 < throttle_fraction L cfg inp.thr_in) :
    cycle L cfg s inp = start_case cfg (front L cfg s inp) (cycle_run_time s inp.ms) := by
  have hs : (front L cfg s inp).state = State.START := by simp [hst]
  rw [cycle_eq_front]
  unfold state_step
  rw [hs]
  simp only []
  apply running_guards_pass
  · rw [start_case_rpm, front_rpm]; omega
  · rw [start_case_throttle_in, front_throttle_in]; exact not_le.mpr hthr
  · rw [start_case_rpm, front_rpm]; omega

/-- C20 on an automatic start with dwell 1500 and crank time 1000: the starter
is still driven in `START` at tick 2700, and the cycle at tick 4200 (run time
1600) reaches `RUNNING` with the crank channel back at its minimum. -/
theorem starter_released_in_running_witness :
    cfg_quick.dwell_time_ms ≥ cfg_quick.start_time_ms ∧
    (run 2200 cfg_quick (boot cfg_quick 0) inps_cranked).state = State.START ∧
    (run 2200 cfg_quick (boot cfg_quick 0) inps_cranked).pwm1_out = cfg_quick.pwm1_max ∧
    (run 2200 cfg_quick (boot cfg_quick 0) (inps_cranked ++ [inp_turning 4200])).state =
      State.RUNNING ∧
    (run 2200 cfg_quick (boot cfg_quick 0) (inps_cranked ++ [inp_turning 4200])).pwm1_out =
      cfg_quick.pwm1_min := by
  have h4 : (run 2200 cfg_quick (boot cfg_quick 0) inps_cranked).state = State.START := by
    decide
  have hf : 0 < throttle_fraction 2200 cfg_quick (inp_turning 4200).thr_in := by
    have e1 : clamp_pwm 2200 (to_i16 ((1500 : Nat) : Int)) 1000 2000 = 1500 := by decide
    have e2 : sub16 1500 1000 = 500 := by decide
    have e3 : sub16 2000 1000 = 1000 := by decide
    simp only [throttle_fraction, cfg_quick, cfg_demo, inp_turning, e1, e2, e3]
    norm_num
  have e := cycle_start_pass 2200 cfg_quick (run 2200 cfg_quick (boot cfg_quick 0) inps_cranked)
    (inp_turning 4200) h4 (by decide) (by decide) hf
  have h5 : (run 2200 cfg_quick (boot cfg_quick 0) (inps_cranked ++ [inp_turning 4200])).state =
      State.RUNNING := by
    show (cycle 2200 cfg_quick (run 2200 cfg_quick (boot cfg_quick 0) inps_cranked)
      (inp_turning 4200)).state = State.RUNNING
    rw [e]
    decide
  exact ⟨by decide, h4, by decide, h5,
    (starter_released_in_running 2200 cfg_quick (by decide)
      (inps_cranked ++ [inp_turning 4200])).2 0 h5⟩

end Ecu
